import Mathlib

/-!
Verification development for the excludarr reconciliation engine.

The Python source is shallowly embedded: its heterogeneous dicts become
association lists over a small value type, stateful methods become explicit
state-passing functions, remote HTTP calls become oracle parameters, and every
issued call is collected in an explicit request log so that "no HTTP request is
issued" is a statement about that log.  Timestamps are natural numbers.
-/

namespace Excludarr

/-- A value stored in one of the source's dynamic dictionaries
(string fields, boolean flags, and Python `None`). -/
inductive Val where
  | str (s : String)
  | bool (b : Bool)
  | null
deriving DecidableEq, Repr

/-- Lookup in an insertion-ordered association list (Python `d.get(k)` /
`d[k]`): the first binding of the key, if any. -/
def alGet {α : Type} : List (String × α) → String → Option α
  | [], _ => none
  | (a, b) :: t, k => if a == k then some b else alGet t k

/-- Python `k in d` membership test. -/
def alHas {α : Type} (d : List (String × α)) (k : String) : Bool :=
  (alGet d k).isSome

/-- Python `d[k] = v`: replace the existing binding in place, else append.
Keys built this way are unique, so replacing the first binding models
`dict` assignment exactly. -/
def alSet {α : Type} : List (String × α) → String → α → List (String × α)
  | [], k, v => [(k, v)]
  | (a, b) :: t, k, v => if a == k then (k, v) :: t else (a, b) :: alSet t k v

/-- Python `d.update(kvs)`: sequential assignment of each pair. -/
def alUpdate {α : Type} (d : List (String × α)) (kvs : List (String × α)) :
    List (String × α) :=
  kvs.foldl (fun acc p => alSet acc p.1 p.2) d

/-! ## CircuitBreaker (availability_cache.py, class CircuitBreaker)

The breaker state is `"closed"`, `"open"` or `"half-open"` exactly as in the
source.  `call` takes the outcome of the guarded function as a value plus an
`invoked` flag in the result, so that "the function was not invoked" is
expressible. -/

/-- `CircuitBreaker.__init__` state (thread lock omitted: all transitions are
already atomic here). -/
structure CircuitBreaker where
  failureThreshold : Nat
  recoveryTimeout : Nat
  failureCount : Nat
  lastFailureTime : Option Nat
  state : String
deriving DecidableEq, Repr

/-- Fresh breaker (`CircuitBreaker(failure_threshold, recovery_timeout)`). -/
def CircuitBreaker.init (threshold recovery : Nat) : CircuitBreaker :=
  { failureThreshold := threshold, recoveryTimeout := recovery,
    failureCount := 0, lastFailureTime := none, state := "closed" }

/-- `record_failure`: increment the count, stamp the time, open when the
threshold is reached. -/
def CircuitBreaker.recordFailure (cb : CircuitBreaker) (now : Nat) : CircuitBreaker :=
  let cb := { cb with failureCount := cb.failureCount + 1, lastFailureTime := some now }
  if cb.failureCount ≥ cb.failureThreshold then { cb with state := "open" } else cb

/-- `record_success`: full reset to closed. -/
def CircuitBreaker.recordSuccess (cb : CircuitBreaker) : CircuitBreaker :=
  { cb with failureCount := 0, lastFailureTime := none, state := "closed" }

/-- `can_attempt_call`: closed and half-open pass; open passes only once the
recovery timeout has strictly elapsed, transitioning to half-open. -/
def CircuitBreaker.canAttemptCall (cb : CircuitBreaker) (now : Nat) :
    Bool × CircuitBreaker :=
  if cb.state == "closed" then (true, cb)
  else if cb.state == "open" then
    match cb.lastFailureTime with
    | some t =>
        if now - t > cb.recoveryTimeout then (true, { cb with state := "half-open" })
        else (false, cb)
    | none => (false, cb)
  else if cb.state == "half-open" then (true, cb)
  else (false, cb)

/-- Result of `CircuitBreaker.call`: the raised `CircuitBreakerError`, or the
guarded function's own error, or its value. -/
inductive CallOutcome (ε α : Type) where
  | circuitOpen
  | fnError (e : ε)
  | ok (a : α)
deriving DecidableEq, Repr

/-- `call(func, ...)`: refuse with `CircuitBreakerError` when `can_attempt_call`
is false (the function is not invoked); otherwise run the function, record a
success only when the state is half-open, record every failure, and re-raise
the function's error.  The third component tells whether the function ran. -/
def CircuitBreaker.call {ε α : Type} (cb : CircuitBreaker) (now : Nat)
    (fnResult : Except ε α) : CallOutcome ε α × CircuitBreaker × Bool :=
  let (can, cb1) := cb.canAttemptCall now
  if !can then (CallOutcome.circuitOpen, cb1, false)
  else
    match fnResult with
    | Except.ok a =>
        if cb1.state == "half-open" then (CallOutcome.ok a, cb1.recordSuccess, true)
        else (CallOutcome.ok a, cb1, true)
    | Except.error e => (CallOutcome.fnError e, cb1.recordFailure now, true)

/-! ## AvailabilityCache.get and TMDBCache reads (C4)

Rows are `(key, payload, expires_at)`; `created_at` and the JSON encoding play
no role in the read path.  Both reads return the store after the read so that
deletion (or its absence) is visible. -/

/-- A cache row: key, payload, `expires_at`. -/
structure CacheRow where
  key : String
  payload : String
  expiresAt : Nat
deriving DecidableEq, Repr

/-- `AvailabilityCache.get`: return the payload when `now <= expires_at`;
when the row exists but is expired, delete it as part of the read and miss. -/
def availCacheGet (store : List CacheRow) (now : Nat) (key : String) :
    Option String × List CacheRow :=
  match store.find? (fun r => r.key == key) with
  | some r =>
      if now ≤ r.expiresAt then (some r.payload, store)
      else (none, store.filter (fun r => !(r.key == key)))
  | none => (none, store)

/-- `TMDBCache._get_entry`: a plain SELECT; the store is returned unchanged
because the read performs no deletion. -/
def tmdbCacheGetEntry (store : List CacheRow) (key : String) :
    Option CacheRow × List CacheRow :=
  (store.find? (fun r => r.key == key), store)

/-- `TMDBCache._generate_key`. -/
def tmdbGenKey (pre ident : String) (country : Option String) : String :=
  match country with
  | some c => pre ++ ":" ++ ident ++ ":" ++ c
  | none => pre ++ ":" ++ ident

/-- `TMDBCacheEntry.is_expired`: strictly past the expiry instant. -/
def tmdbEntryIsExpired (now : Nat) (r : CacheRow) : Bool :=
  decide (now > r.expiresAt)

/-- `TMDBCache.get_provider_data`: read the entry, return its payload only when
present and not expired; expired rows are left in the store (cleanup happens
elsewhere, in `cleanup_expired`). -/
def tmdbCacheGetProviderData (store : List CacheRow) (now : Nat)
    (tmdbId : Nat) (country : Option String) : Option String × List CacheRow :=
  let e := tmdbCacheGetEntry store (tmdbGenKey "providers" (toString tmdbId) country)
  match e.1 with
  | some r => if !(tmdbEntryIsExpired now r) then (some r.payload, e.2) else (none, e.2)
  | none => (none, e.2)

/-! ## IMDb-id validation (tmdb_client.py, `_validate_imdb_id`) (C9)

The source regex is `^tt\d{7}$` under Python `re.match` semantics: `$` also
matches just before one trailing newline.  `\d` is modelled as an ASCII digit
(the claims only involve ASCII inputs). -/

/-- Does a character list read `tt` followed by exactly 7 digits? -/
def isTT7 : List Char → Bool
  | 't' :: 't' :: ds => ds.length == 7 && ds.all Char.isDigit
  | _ => false

/-- `_validate_imdb_id` as a predicate: `True` when no exception is raised.
The empty-string guard (`not imdb_id`) is subsumed by the pattern; the
`re.match(r'^tt\d{7}$', s)` test accepts the bare pattern and the pattern
followed by a single trailing newline. -/
def validateImdbId (s : String) : Bool :=
  isTT7 s.data ||
    (match s.data.getLast? with
     | some c => c == '\n' && isTT7 s.data.dropLast
     | none => false)

/-! ## Planner (sync.py, `SyncEngine._make_sync_decision`) -/

/-- One entry of a series' `seasons` list. -/
structure SeasonEntry where
  seasonNumber : Int
  monitored : Bool
deriving DecidableEq, Repr

/-- The fields of a Sonarr series record that the sync engine reads. -/
structure Series where
  id : Int
  title : String
  imdbId : Option String
  seasons : List SeasonEntry
deriving DecidableEq, Repr

/-- Per-provider availability as consumed by the planner: the keys the planner
reads out of each provider's dict (`available`, `seasons`). -/
structure ProviderAvail where
  available : Bool
  seasons : List Int
deriving DecidableEq, Repr

/-- The planner's `best_match` accumulator (the `coverage_percent` float is
computed in the source but never read; it is omitted). -/
structure BestMatch where
  name : String
  seasons : List Int
  totalMonitored : Nat
deriving DecidableEq, Repr

/-- `SyncDecision` dataclass. -/
structure SyncDecision where
  seriesId : Int
  seriesTitle : String
  action : String
  shouldProcess : Bool
  reason : String
  provider : Option String := none
  affectedSeasons : Option (List Int) := none
  scope : String := "series"
deriving DecidableEq, Repr

/-- `SyncResult` dataclass. -/
structure SyncResult where
  seriesId : Int
  seriesTitle : String
  success : Bool
  actionTaken : String
  message : String
  provider : Option String := none
  error : Option String := none
deriving DecidableEq, Repr

/-- `monitored_seasons = [s["seasonNumber"] for s in series["seasons"] if
s["monitored"]]` — note: no season-number filtering of any kind. -/
def monitoredSeasonNumbers (s : Series) : List Int :=
  (s.seasons.filter (fun e => e.monitored)).map (fun e => e.seasonNumber)

/-- `", ".join(map(str, l))`. -/
def joinCommaInt (l : List Int) : String :=
  String.intercalate ", " (l.map toString)

/-- Python `set(l)` represented as a duplicate-free list (later occurrences
win, which is irrelevant: only membership, size and sorted order are used). -/
def distinctInts : List Int → List Int
  | [] => []
  | x :: t => if x ∈ t then distinctInts t else x :: distinctInts t

/-- Set intersection on duplicate-free lists. -/
def interInts (A M : List Int) : List Int :=
  A.filter (fun n => M.contains n)

/-- Insertion into an ascending list, for `sorted(...)`. -/
def insertAsc (n : Int) : List Int → List Int
  | [] => [n]
  | m :: t => if n ≤ m then n :: m :: t else m :: insertAsc n t

/-- Python `sorted(s)`: ascending insertion sort. -/
def sortInts (l : List Int) : List Int :=
  l.foldr insertAsc []

/-- The three-way `matching_seasons` / `total_monitored` computation of the
planner: season sets absent on both sides or no monitored seasons assume
season 1; otherwise the true intersection with the monitored count. -/
def seasonMatch (A M : List Int) : List Int × Nat :=
  if A.isEmpty && M.isEmpty then ([1], 1)
  else if M.isEmpty then ([1], 1)
  else (interInts A M, M.length)

/-- The body of the planner's `for provider_name, provider_data in
availability.items()` loop, folded over the accumulator
`(best_match, max_available_seasons)`. -/
def deciderStep (monitoredList : List Int) (st : Option BestMatch × Nat)
    (item : String × ProviderAvail) : Option BestMatch × Nat :=
  let (best, maxN) := st
  let (name, data) := item
  if data.available then
    let mt := seasonMatch (distinctInts data.seasons) (distinctInts monitoredList)
    if !mt.1.isEmpty then
      if mt.1.length > maxN then
        (some { name := name, seasons := sortInts mt.1, totalMonitored := mt.2 },
         mt.1.length)
      else (best, maxN)
    else (best, maxN)
  else (best, maxN)

/-- `SyncEngine._make_sync_decision`. -/
def makeSyncDecision (series : Series) (availability : List (String × ProviderAvail))
    (cfgAction : String) : SyncDecision :=
  let monitoredList := monitoredSeasonNumbers series
  let st := availability.foldl (deciderStep monitoredList) (none, 0)
  match st.1 with
  | some b =>
      let seasonsStr := joinCommaInt b.seasons
      let actionType := if cfgAction == "delete" then "delete" else "unmonitor"
      if b.seasons.length == b.totalMonitored then
        { seriesId := series.id, seriesTitle := series.title, action := actionType,
          shouldProcess := true,
          reason := "All seasons available on " ++ b.name,
          provider := some b.name, affectedSeasons := some b.seasons,
          scope := "series" }
      else
        let actionType := if cfgAction == "delete" then "unmonitor" else actionType
        { seriesId := series.id, seriesTitle := series.title, action := actionType,
          shouldProcess := true,
          reason := "Seasons " ++ seasonsStr ++ " available on " ++ b.name,
          provider := some b.name, affectedSeasons := some b.seasons,
          scope := "seasons" }
  | none =>
      { seriesId := series.id, seriesTitle := series.title, action := cfgAction,
        shouldProcess := false,
        reason := "Not available on any configured streaming providers",
        provider := none, affectedSeasons := none, scope := "series" }

/-! ## Executor (sync.py, `SyncEngine._execute_sync_decision`) -/

/-- Outcome of one Sonarr client call: a returned boolean or a raised
exception with its message. -/
inductive PVROutcome where
  | ok (success : Bool)
  | exn (msg : String)
deriving DecidableEq, Repr

/-- The Sonarr client as an oracle over its mutation methods. -/
structure PVRClientOracle where
  unmonitorSeason : Int → Int → PVROutcome
  unmonitorSeries : Int → PVROutcome
  deleteSeries : Int → Bool → PVROutcome
  unmonitorAndDeleteSeason : Int → Int → PVROutcome

/-- Log entry for one issued Sonarr mutation call. -/
inductive PVRCall where
  | unmonitorSeason (seriesId n : Int)
  | unmonitorSeries (seriesId : Int)
  | deleteSeries (seriesId : Int) (deleteFiles : Bool)
  | unmonitorAndDeleteSeason (seriesId n : Int)
deriving DecidableEq, Repr

/-- Python truthiness of `decision.affected_seasons` (list or `None`). -/
def hasAffectedSeasons (d : SyncDecision) : Bool :=
  match d.affectedSeasons with
  | some (_ :: _) => true
  | _ => false

/-- The per-season loop of the unmonitor-seasons branch: every season is
attempted in list order (exceptions caught per season), successes are
counted, every attempt is logged. -/
def unmonitorSeasonsLoop (oracle : PVRClientOracle) (sid : Int) :
    List Int → Nat × List PVRCall
  | [] => (0, [])
  | n :: rest =>
      let r := unmonitorSeasonsLoop oracle sid rest
      match oracle.unmonitorSeason sid n with
      | PVROutcome.ok true => (r.1 + 1, PVRCall.unmonitorSeason sid n :: r.2)
      | _ => (r.1, PVRCall.unmonitorSeason sid n :: r.2)

/-- The delete-seasons loop (`unmonitor_and_delete_season` per season). -/
def deleteSeasonsLoop (oracle : PVRClientOracle) (sid : Int) :
    List Int → Nat × List PVRCall
  | [] => (0, [])
  | n :: rest =>
      let r := deleteSeasonsLoop oracle sid rest
      match oracle.unmonitorAndDeleteSeason sid n with
      | PVROutcome.ok true => (r.1 + 1, PVRCall.unmonitorAndDeleteSeason sid n :: r.2)
      | _ => (r.1, PVRCall.unmonitorAndDeleteSeason sid n :: r.2)

/-- The outer exception handler of `_execute_sync_decision`: any raised error
becomes a failure `SyncResult` with the error string attached. -/
def execFailureResult (d : SyncDecision) (e : String) : SyncResult :=
  { seriesId := d.seriesId, seriesTitle := d.seriesTitle, success := false,
    actionTaken := d.action,
    message := "Failed to " ++ d.action ++ " series '" ++ d.seriesTitle ++ "': " ++ e,
    provider := d.provider, error := some e }

/-- `SyncEngine._execute_sync_decision`, returning the result together with
the log of Sonarr mutation calls issued. -/
def executeSyncDecision (dryRun : Bool) (oracle : PVRClientOracle)
    (d : SyncDecision) : SyncResult × List PVRCall :=
  if dryRun then
    let actionVerb := if d.action == "delete" then "delete" else "unmonitor"
    let target :=
      if d.scope == "seasons" && hasAffectedSeasons d then
        "seasons " ++ joinCommaInt (d.affectedSeasons.getD []) ++ " of series"
      else "series"
    let message := "Would " ++ actionVerb ++ " " ++ target ++ " '" ++
      d.seriesTitle ++ "' (" ++ d.reason ++ ")"
    ({ seriesId := d.seriesId, seriesTitle := d.seriesTitle, success := true,
       actionTaken := d.action, message := message, provider := d.provider },
     [])
  else if d.action == "unmonitor" then
    if d.scope == "seasons" && hasAffectedSeasons d then
      let seasons := d.affectedSeasons.getD []
      let r := unmonitorSeasonsLoop oracle d.seriesId seasons
      if r.1 > 0 then
        let seasonsStr := joinCommaInt (seasons.take r.1)
        ({ seriesId := d.seriesId, seriesTitle := d.seriesTitle, success := true,
           actionTaken := "unmonitor",
           message := "Unmonitored seasons " ++ seasonsStr ++ " of series '" ++
             d.seriesTitle ++ "' (" ++ d.reason ++ ")",
           provider := d.provider }, r.2)
      else (execFailureResult d "Failed to unmonitor any seasons", r.2)
    else
      let log := [PVRCall.unmonitorSeries d.seriesId]
      match oracle.unmonitorSeries d.seriesId with
      | PVROutcome.ok true =>
          ({ seriesId := d.seriesId, seriesTitle := d.seriesTitle, success := true,
             actionTaken := "unmonitor",
             message := "Unmonitored series '" ++ d.seriesTitle ++ "' (" ++
               d.reason ++ ")",
             provider := d.provider }, log)
      | PVROutcome.ok false =>
          (execFailureResult d "Unmonitor operation returned failure", log)
      | PVROutcome.exn m => (execFailureResult d m, log)
  else if d.action == "delete" then
    if d.scope == "seasons" && hasAffectedSeasons d then
      let seasons := d.affectedSeasons.getD []
      let r := deleteSeasonsLoop oracle d.seriesId seasons
      if r.1 > 0 then
        let seasonsStr := joinCommaInt (seasons.take r.1)
        ({ seriesId := d.seriesId, seriesTitle := d.seriesTitle, success := true,
           actionTaken := "delete",
           message := "Deleted seasons " ++ seasonsStr ++ " of series '" ++
             d.seriesTitle ++ "' (" ++ d.reason ++ ")",
           provider := d.provider }, r.2)
      else (execFailureResult d "Failed to delete any seasons", r.2)
    else
      let log := [PVRCall.deleteSeries d.seriesId true]
      match oracle.deleteSeries d.seriesId true with
      | PVROutcome.ok true =>
          ({ seriesId := d.seriesId, seriesTitle := d.seriesTitle, success := true,
             actionTaken := "delete",
             message := "Deleted series '" ++ d.seriesTitle ++ "' (" ++
               d.reason ++ ")",
             provider := d.provider }, log)
      | PVROutcome.ok false =>
          (execFailureResult d "Delete operation returned failure", log)
      | PVROutcome.exn m => (execFailureResult d m, log)
  else (execFailureResult d ("Unknown action: " ++ d.action), [])

/-- The seasons whose `unmonitor_season` call actually returned success
(used to compare against the message the executor reports). -/
def succeededSeasons (oracle : PVRClientOracle) (sid : Int)
    (seasons : List Int) : List Int :=
  seasons.filter (fun n =>
    match oracle.unmonitorSeason sid n with
    | PVROutcome.ok true => true
    | _ => false)

/-! ## Aggregator (provider_manager.py, `ProviderManager`)

`get_series_availability` is embedded with the three remote APIs as oracles
and an explicit log of issued lookup calls.  The source's `_get_from_cache`
always returns `None` and `_save_to_cache` is a no-op, so the aggregate cache
does not appear.  Provider objects inside TMDB country blocks are represented
by their `provider_name` (the only key the extraction reads). -/

/-- Python `str.strip()` (ASCII whitespace) on a character list. -/
def stripChars (cs : List Char) : List Char :=
  ((cs.dropWhile Char.isWhitespace).reverse.dropWhile Char.isWhitespace).reverse

/-- Python `.replace('+', '-plus')` on a character list. -/
def replacePlusChars : List Char → List Char
  | [] => []
  | c :: t =>
      if c == '+' then '-' :: 'p' :: 'l' :: 'u' :: 's' :: replacePlusChars t
      else c :: replacePlusChars t

/-- `ProviderManager._normalize_provider_name`: lowercase, strip, spaces to
hyphens, `+` to `-plus`, then the explicit mapping table (ASCII case folding;
the inputs at issue are ASCII). -/
def pmNormalizeProviderName (name : String) : String :=
  if name == "" then ""
  else
    let cs := stripChars (name.data.map Char.toLower)
    let cs := cs.map (fun c => if c == ' ' then '-' else c)
    let normalized := String.mk (replacePlusChars cs)
    let mappings : List (String × String) :=
      [("amazon-prime-video", "amazon-prime"), ("disney-plus", "disney-plus"),
       ("hbo-max", "hbo-max"), ("apple-tv-plus", "apple-tv"),
       ("paramount-plus", "paramount-plus")]
    (alGet mappings normalized).getD normalized

/-- Python `str.upper()` (ASCII) for country codes. -/
def upperString (s : String) : String :=
  String.mk (s.data.map Char.toUpper)

/-- The provider dict inserted by `_extract_tmdb_providers`. -/
def tmdbProviderEntry : List (String × Val) :=
  [("available", Val.bool true), ("type", Val.str "subscription"),
   ("source", Val.str "tmdb")]

/-- `_extract_tmdb_providers`: walk `flatrate`/`free`/`ads` lists of one TMDB
country block and insert a normalized entry per provider name. -/
def extractTmdbProviders (countryData : List (String × List String)) :
    List (String × List (String × Val)) :=
  ["flatrate", "free", "ads"].foldl
    (fun provs t =>
      match alGet countryData t with
      | some names =>
          names.foldl
            (fun provs pname =>
              let n := pmNormalizeProviderName pname
              if n != "" then alSet provs n tmdbProviderEntry else provs)
            provs
      | none => provs)
    []

/-- `_reconstruct_tmdb_response`: cached provider names become a
`flatrate`-only block per country. -/
def reconstructTmdbResponse (providersData : List (String × List String)) :
    List (String × List (String × List String)) :=
  providersData.map (fun p => (p.1, [("flatrate", p.2)]))

/-- One streaming option from the Streaming Availability API after
`extract_provider_info`, with the `detail.get(...)` defaults applied. -/
structure SADetail where
  type : String
  link : String
  quality : String
  expiryDate : Val
deriving DecidableEq, Repr

/-- One offer from the Utelly API after `extract_provider_info`, with the
`detail.get(...)` defaults applied. -/
structure UDetail where
  type : String
  url : String
  icon : String
deriving DecidableEq, Repr

/-- Outcome of the TMDB `find` HTTP call. -/
inductive TMDBFindOutcome where
  | found (tmdbId : Nat)
  | notFound
  | failure
deriving DecidableEq, Repr

/-- Outcome of the TMDB `watch/providers` HTTP call
(country → availability type → provider names). -/
inductive TMDBProvOutcome where
  | ok (results : List (String × List (String × List String)))
  | failure
deriving DecidableEq, Repr

/-- Outcome of one Streaming Availability lookup for one country. -/
inductive SAOutcome where
  | ok (providers : List (String × List SADetail))
  | rateLimited
  | failure
deriving DecidableEq, Repr

/-- Outcome of one Utelly lookup for one country. -/
inductive UOutcome where
  | ok (providers : List (String × List UDetail))
  | rateLimited
  | failure
deriving DecidableEq, Repr

/-- The aggregator's environment: which providers are initialized, the two
TMDB cache views, and the remote APIs as oracles. -/
structure AggEnv where
  tmdbEnabled : Bool
  saEnabled : Bool
  utellyEnabled : Bool
  idMappingCache : String → Option Nat
  providerDataCache : Nat → Option (List (String × List String))
  tmdbFind : String → TMDBFindOutcome
  tmdbProviders : Nat → TMDBProvOutcome
  saLookup : String → String → SAOutcome
  utellyLookup : String → String → UOutcome

/-- One issued remote lookup call. -/
inductive Request where
  | tmdbFind
  | tmdbProviders
  | sa (country : String)
  | utelly (country : String)
deriving DecidableEq, Repr

/-- Error kinds of `TMDBClient.find_series_by_imdb_id`. -/
inductive TMDBErrKind where
  | invalidId
  | notFound
  | other
deriving DecidableEq, Repr

/-- `TMDBClient.find_series_by_imdb_id`: validate the IMDb id first; an
invalid id raises before any HTTP request is issued. -/
def findSeriesByImdbId (env : AggEnv) (imdbId : String) :
    Except TMDBErrKind Nat × List Request :=
  if !(validateImdbId imdbId) then (Except.error TMDBErrKind.invalidId, [])
  else
    match env.tmdbFind imdbId with
    | TMDBFindOutcome.found tid => (Except.ok tid, [Request.tmdbFind])
    | TMDBFindOutcome.notFound => (Except.error TMDBErrKind.notFound, [Request.tmdbFind])
    | TMDBFindOutcome.failure => (Except.error TMDBErrKind.other, [Request.tmdbFind])

/-- The `tmdb_data` dict produced by `_get_tmdb_data`. -/
structure TMDBData where
  tmdbId : Nat
  providers : List (String × List (String × List String))
deriving DecidableEq, Repr

/-- The providers half of `_get_tmdb_data`: cached extracted data is
reconstructed, otherwise the `watch/providers` HTTP call is issued. -/
def getTmdbProvidersStep (env : AggEnv) (tid : Nat) (q0 : List Request) :
    Option TMDBData × List Request :=
  match env.providerDataCache tid with
  | some pd => (some { tmdbId := tid, providers := reconstructTmdbResponse pd }, q0)
  | none =>
      match env.tmdbProviders tid with
      | TMDBProvOutcome.ok results =>
          (some { tmdbId := tid, providers := results }, q0 ++ [Request.tmdbProviders])
      | TMDBProvOutcome.failure => (none, q0 ++ [Request.tmdbProviders])

/-- `ProviderManager._get_tmdb_data` (every raised error is caught and
becomes `None`). -/
def getTmdbData (env : AggEnv) (imdbId : String) : Option TMDBData × List Request :=
  if !env.tmdbEnabled then (none, [])
  else
    match env.idMappingCache imdbId with
    | some tid => getTmdbProvidersStep env tid []
    | none =>
        let fr := findSeriesByImdbId env imdbId
        match fr.1 with
        | Except.ok tid => getTmdbProvidersStep env tid fr.2
        | Except.error _ => (none, fr.2)

/-- The combined availability record built by `get_series_availability`
(`checked_at` timestamp omitted). -/
structure AggResult where
  imdbId : String
  tmdbId : Option Nat
  countries : List (String × List (String × List (String × Val)))
  sources : List String
deriving DecidableEq, Repr

/-- Step 1 of `get_series_availability`: TMDB id and per-country provider
extraction. -/
def tmdbPhase (env : AggEnv) (imdbId : String) (countries : List String) :
    AggResult × List Request :=
  let td := getTmdbData env imdbId
  match td.1 with
  | some d =>
      let cmap := countries.foldl
        (fun cmap c =>
          match alGet d.providers (upperString c) with
          | some block => alSet cmap c (extractTmdbProviders block)
          | none => cmap)
        []
      ({ imdbId := imdbId, tmdbId := some d.tmdbId, countries := cmap,
         sources := ["tmdb"] }, td.2)
  | none => ({ imdbId := imdbId, tmdbId := none, countries := [], sources := [] }, td.2)

/-- `_should_use_streaming_availability`: true exactly when some requested
country has no providers from the result so far. -/
def shouldUseStreamingAvailability (result : AggResult) (countries : List String) :
    Bool :=
  countries.any (fun c =>
    match alGet result.countries c with
    | none => true
    | some provs => provs.isEmpty)

/-- `_should_use_utelly`: at the first country with no providers, use Utelly
only when Streaming Availability contributed nothing. -/
def shouldUseUtelly (result : AggResult) (countries : List String) : Bool :=
  match countries.find? (fun c =>
    match alGet result.countries c with
    | none => true
    | some provs => provs.isEmpty) with
  | some _ => !(result.sources.contains "streaming_availability")
  | none => false

/-- The loop of `_get_streaming_availability_data`: one lookup per requested
country in order; a quota error breaks the loop, any other error is skipped. -/
def getSADataAux (env : AggEnv) (imdbId : String) :
    List String → List (String × List (String × List SADetail)) → List Request →
    List (String × List (String × List SADetail)) × List Request
  | [], acc, log => (acc, log)
  | c :: rest, acc, log =>
      let log := log ++ [Request.sa c]
      match env.saLookup imdbId c with
      | SAOutcome.ok provs =>
          getSADataAux env imdbId rest
            (if provs.isEmpty then acc else alSet acc c provs) log
      | SAOutcome.rateLimited => (acc, log)
      | SAOutcome.failure => getSADataAux env imdbId rest acc log

/-- `ProviderManager._get_streaming_availability_data`. -/
def getSAData (env : AggEnv) (imdbId : String) (countries : List String) :
    List (String × List (String × List SADetail)) × List Request :=
  getSADataAux env imdbId countries [] []

/-- The loop of `_get_utelly_data`. -/
def getUtellyDataAux (env : AggEnv) (imdbId : String) :
    List String → List (String × List (String × List UDetail)) → List Request →
    List (String × List (String × List UDetail)) × List Request
  | [], acc, log => (acc, log)
  | c :: rest, acc, log =>
      let log := log ++ [Request.utelly c]
      match env.utellyLookup imdbId c with
      | UOutcome.ok provs =>
          getUtellyDataAux env imdbId rest
            (if provs.isEmpty then acc else alSet acc c provs) log
      | UOutcome.rateLimited => (acc, log)
      | UOutcome.failure => getUtellyDataAux env imdbId rest acc log

/-- `ProviderManager._get_utelly_data`. -/
def getUtellyData (env : AggEnv) (imdbId : String) (countries : List String) :
    List (String × List (String × List UDetail)) × List Request :=
  getUtellyDataAux env imdbId countries [] []

/-- The entry inserted for a provider that Streaming Availability reports and
the record does not yet contain. -/
def saBaseEntry : List (String × Val) :=
  [("available", Val.bool true), ("source", Val.str "streaming_availability")]

/-- The `entry.update({...})` of the Streaming Availability merge: type, link,
quality, expiry and source are all assigned unconditionally. -/
def saDetailUpdate (entry : List (String × Val)) (detail : SADetail) :
    List (String × Val) :=
  alUpdate entry
    [("type", Val.str detail.type), ("link", Val.str detail.link),
     ("quality", Val.str detail.quality), ("expiry_date", detail.expiryDate),
     ("source", Val.str "streaming_availability")]

/-- Net effect of the Streaming Availability merge on one provider entry:
insert the base if absent, then apply every detail update in order. -/
def mergeSAProviderEntry (existing : Option (List (String × Val)))
    (details : List SADetail) : List (String × Val) :=
  details.foldl saDetailUpdate (existing.getD saBaseEntry)

/-- The inner provider loop of `_merge_streaming_availability_data` over one
country's provider map. -/
def mergeSACountry (cmap : List (String × List (String × Val)))
    (provs : List (String × List SADetail)) : List (String × List (String × Val)) :=
  provs.foldl (fun m p => alSet m p.1 (mergeSAProviderEntry (alGet m p.1) p.2)) cmap

/-- `ProviderManager._merge_streaming_availability_data`. -/
def mergeStreamingAvailabilityData (result : AggResult)
    (saData : List (String × List (String × List SADetail)))
    (countries : List String) : AggResult :=
  { result with
    countries := countries.foldl
      (fun cmap c =>
        match alGet saData c with
        | some provs => alSet cmap c (mergeSACountry ((alGet cmap c).getD []) provs)
        | none => cmap)
      result.countries }

/-- The entry inserted for a provider that Utelly reports and the record does
not yet contain. -/
def uBaseEntry : List (String × Val) :=
  [("available", Val.bool true), ("source", Val.str "utelly")]

/-- One detail step of the Utelly merge: `link` is written only when the entry
has no `link` key at all; type, icon and source are assigned unconditionally. -/
def uDetailUpdate (entry : List (String × Val)) (detail : UDetail) :
    List (String × Val) :=
  let entry := if alHas entry "link" then entry else alSet entry "link" (Val.str detail.url)
  alUpdate entry
    [("type", Val.str detail.type), ("icon", Val.str detail.icon),
     ("source", Val.str "utelly")]

/-- Net effect of the Utelly merge on one provider entry. -/
def mergeUtellyProviderEntry (existing : Option (List (String × Val)))
    (details : List UDetail) : List (String × Val) :=
  details.foldl uDetailUpdate (existing.getD uBaseEntry)

/-- The inner provider loop of `_merge_utelly_data`. -/
def mergeUtellyCountry (cmap : List (String × List (String × Val)))
    (provs : List (String × List UDetail)) : List (String × List (String × Val)) :=
  provs.foldl (fun m p => alSet m p.1 (mergeUtellyProviderEntry (alGet m p.1) p.2)) cmap

/-- `ProviderManager._merge_utelly_data`. -/
def mergeUtellyData (result : AggResult)
    (uData : List (String × List (String × List UDetail)))
    (countries : List String) : AggResult :=
  { result with
    countries := countries.foldl
      (fun cmap c =>
        match alGet uData c with
        | some provs => alSet cmap c (mergeUtellyCountry ((alGet cmap c).getD []) provs)
        | none => cmap)
      result.countries }

/-- Step 2 of `get_series_availability`: the Streaming Availability fallback,
guarded by provider initialization and `_should_use_streaming_availability`. -/
def saPhase (env : AggEnv) (imdbId : String) (countries : List String)
    (r1 : AggResult) : AggResult × List Request :=
  if env.saEnabled && shouldUseStreamingAvailability r1 countries then
    let sd := getSAData env imdbId countries
    if sd.1.isEmpty then (r1, sd.2)
    else
      (mergeStreamingAvailabilityData
        { r1 with sources := r1.sources ++ ["streaming_availability"] } sd.1 countries,
       sd.2)
  else (r1, [])

/-- Step 3 of `get_series_availability`: the Utelly fallback, guarded by
provider initialization and `_should_use_utelly`. -/
def utellyPhase (env : AggEnv) (imdbId : String) (countries : List String)
    (r2 : AggResult) : AggResult × List Request :=
  if env.utellyEnabled && shouldUseUtelly r2 countries then
    let ud := getUtellyData env imdbId countries
    if ud.1.isEmpty then (r2, ud.2)
    else
      (mergeUtellyData { r2 with sources := r2.sources ++ ["utelly"] } ud.1 countries,
       ud.2)
  else (r2, [])

/-- `ProviderManager.get_series_availability`, with the log of all issued
remote lookups (the aggregate-result cache layer is a no-op in the source). -/
def getSeriesAvailability (env : AggEnv) (imdbId : String)
    (countries : List String) : AggResult × List Request :=
  let p1 := tmdbPhase env imdbId countries
  let p2 := saPhase env imdbId countries p1.1
  let p3 := utellyPhase env imdbId countries p2.1
  (p3.1, p1.2 ++ p2.2 ++ p3.2)

/-- `ProviderManager.filter_by_user_providers`: one boolean per country in the
record — does any provider key match a normalized subscribed provider name? -/
def filterByUserProviders (availability : AggResult) (userProviders : List String) :
    List (String × Bool) :=
  let normalized := userProviders.map pmNormalizeProviderName
  availability.countries.map (fun p => (p.1, p.2.any (fun e => normalized.contains e.1)))

/-! ## Blacklist (availability_cache.py, `tvdb_blacklist` operations) -/

/-- One row of the `tvdb_blacklist` table (keyed by TVDB id). -/
structure BlacklistRow where
  reason : String
  failureCount : Nat
  firstFailure : Nat
  lastFailure : Nat
deriving DecidableEq, Repr

/-- `AvailabilityCache.is_blacklisted`: a row exists and its failure count has
reached the threshold. -/
def isBlacklisted (bl : List (Nat × BlacklistRow)) (threshold : Nat)
    (tvdbId : Nat) : Bool :=
  match bl.find? (fun p => p.1 == tvdbId) with
  | some p => decide (p.2.failureCount ≥ threshold)
  | none => false

/-- `AvailabilityCache.add_to_blacklist` (`INSERT OR REPLACE` with
`failure_count + 1` and preserved `first_failure` for an existing row). -/
def addToBlacklist : List (Nat × BlacklistRow) → Nat → String → Nat →
    List (Nat × BlacklistRow)
  | [], tid, reason, now => [(tid, ⟨reason, 1, now, now⟩)]
  | (a, row) :: t, tid, reason, now =>
      if a == tid then (tid, ⟨reason, row.failureCount + 1, row.firstFailure, now⟩) :: t
      else (a, row) :: addToBlacklist t tid reason now

/-! ## Jellyseerr availability lookup (availability.py,
`AvailabilityChecker._get_jellyseerr_availability`)

This is the one place in the source that consults the blacklist.  The
Jellyseerr client is an oracle; issued Jellyseerr calls are logged. -/

/-- The distinguishable returns of `_get_jellyseerr_availability`
(`noData` covers every `return None`). -/
inductive JellyOut where
  | blacklisted (tvdbId : Nat)
  | circuitOpen
  | cachedData (payload : String)
  | fresh (payload : String) (source : String)
  | noData
deriving DecidableEq, Repr

/-- One issued Jellyseerr API call. -/
inductive JellyReq where
  | tvdbLookup (id : Nat)
  | imdbLookup (id : String)
deriving DecidableEq, Repr

/-- Environment of the Jellyseerr lookup: configuration flags, the cache's
blacklist and circuit breaker, the cached payload for this series' key, and
the Jellyseerr API as oracles (`ok none` models a falsy response). -/
structure JellyEnv where
  hasClient : Bool
  hasCache : Bool
  blacklist : List (Nat × BlacklistRow)
  blacklistThreshold : Nat
  breaker : CircuitBreaker
  now : Nat
  cachedLookup : Option String
  tvdbResult : Nat → Except String (Option String)
  imdbResult : String → Except String (Option String)

/-- Result record of the Jellyseerr lookup: returned value, issued calls and
the updated breaker and blacklist. -/
structure JellyOutcomeRec where
  out : JellyOut
  requests : List JellyReq
  breaker : CircuitBreaker
  blacklist : List (Nat × BlacklistRow)
deriving Repr

/-- The `tvdb_id` attempt inside `_get_jellyseerr_availability`: guarded by
truthiness of `tvdb_id`; an exception from the breaker-wrapped call records a
failure against the TVDB id in the blacklist. -/
def jellyTvdbAttempt (env : JellyEnv) (cb : CircuitBreaker) (tvdbId : Option Nat) :
    Option (String × String) × List JellyReq × CircuitBreaker ×
      List (Nat × BlacklistRow) :=
  match tvdbId with
  | some t =>
      if t != 0 then
        let c := cb.call env.now (env.tvdbResult t)
        let log := if c.2.2 then [JellyReq.tvdbLookup t] else []
        match c.1 with
        | CallOutcome.ok (some payload) =>
            (some (payload, "jellyseerr_tvdb"), log, c.2.1, env.blacklist)
        | CallOutcome.ok none => (none, log, c.2.1, env.blacklist)
        | CallOutcome.fnError e =>
            (none, log, c.2.1, addToBlacklist env.blacklist t e env.now)
        | CallOutcome.circuitOpen =>
            (none, log, c.2.1,
             addToBlacklist env.blacklist t "Circuit breaker is open" env.now)
      else (none, [], cb, env.blacklist)
  | none => (none, [], cb, env.blacklist)

/-- `AvailabilityChecker._get_jellyseerr_availability`. -/
def getJellyseerrAvailability (env : JellyEnv) (tvdbId : Option Nat)
    (imdbId : Option String) : JellyOutcomeRec :=
  if !env.hasClient || !env.hasCache then
    { out := JellyOut.noData, requests := [], breaker := env.breaker,
      blacklist := env.blacklist }
  else if (match tvdbId with
           | some t => t != 0 && isBlacklisted env.blacklist env.blacklistThreshold t
           | none => false) then
    { out := JellyOut.blacklisted (tvdbId.getD 0), requests := [],
      breaker := env.breaker, blacklist := env.blacklist }
  else
    let can := env.breaker.canAttemptCall env.now
    if !can.1 then
      { out := JellyOut.circuitOpen, requests := [], breaker := can.2,
        blacklist := env.blacklist }
    else
      match env.cachedLookup with
      | some d =>
          { out := JellyOut.cachedData d, requests := [], breaker := can.2,
            blacklist := env.blacklist }
      | none =>
          let a1 := jellyTvdbAttempt env can.2 tvdbId
          match a1.1 with
          | some ps =>
              { out := JellyOut.fresh ps.1 ps.2, requests := a1.2.1,
                breaker := a1.2.2.1, blacklist := a1.2.2.2 }
          | none =>
              match imdbId with
              | some s =>
                  if s != "" then
                    let c := a1.2.2.1.call env.now (env.imdbResult s)
                    let log := a1.2.1 ++ (if c.2.2 then [JellyReq.imdbLookup s] else [])
                    match c.1 with
                    | CallOutcome.ok (some payload) =>
                        { out := JellyOut.fresh payload "jellyseerr_imdb",
                          requests := log, breaker := c.2.1, blacklist := a1.2.2.2 }
                    | _ =>
                        { out := JellyOut.noData, requests := log, breaker := c.2.1,
                          blacklist := a1.2.2.2 }
                  else
                    { out := JellyOut.noData, requests := a1.2.1,
                      breaker := a1.2.2.1, blacklist := a1.2.2.2 }
              | none =>
                  { out := JellyOut.noData, requests := a1.2.1,
                    breaker := a1.2.2.1, blacklist := a1.2.2.2 }

/-! ## Sync engine availability pipeline (sync.py,
`_check_series_availability` and `_process_series`) -/

/-- One configured streaming provider (`streamingProviders` config entries). -/
structure StreamingProviderCfg where
  name : String
  country : String
deriving DecidableEq, Repr

/-- `SyncEngine._check_series_availability`: a series without a (truthy) IMDb
id issues no lookup and is reported unavailable on every configured provider;
otherwise the aggregator result is filtered against the user's providers. -/
def checkSeriesAvailability (env : AggEnv) (cfgProviders : List StreamingProviderCfg)
    (userProviders : List String) (userCountries : List String) (series : Series) :
    List (String × ProviderAvail) × List Request :=
  match series.imdbId with
  | none =>
      (cfgProviders.map (fun p => (p.name, { available := false, seasons := [] })), [])
  | some imdb =>
      if imdb == "" then
        (cfgProviders.map (fun p => (p.name, { available := false, seasons := [] })), [])
      else
        let ga := getSeriesAvailability env imdb userCountries
        let ua := filterByUserProviders ga.1 userProviders
        (cfgProviders.map (fun p =>
          (p.name,
           { available := (alGet ua p.country).getD false, seasons := [] })), ga.2)

/-- `SyncEngine._process_series`: check availability, decide, then either
execute the decision or return the no-action success result. -/
def processSeries (env : AggEnv) (cfgProviders : List StreamingProviderCfg)
    (userProviders : List String) (userCountries : List String)
    (cfgAction : String) (dryRun : Bool) (oracle : PVRClientOracle)
    (series : Series) : SyncResult × List Request × List PVRCall :=
  let ca := checkSeriesAvailability env cfgProviders userProviders userCountries series
  let d := makeSyncDecision series ca.1 cfgAction
  if d.shouldProcess then
    let ex := executeSyncDecision dryRun oracle d
    (ex.1, ca.2, ex.2)
  else
    ({ seriesId := series.id, seriesTitle := series.title, success := true,
       actionTaken := "none", message := d.reason }, ca.2, [])

/-! ## Supporting lemmas -/

theorem alGet_alSet_self {α : Type} (d : List (String × α)) (k : String) (v : α) :
    alGet (alSet d k v) k = some v := by
  induction d with
  | nil => simp [alSet, alGet]
  | cons hd t ih =>
      obtain ⟨a, b⟩ := hd
      by_cases h : a == k
      · simp [alSet, h, alGet]
      · simp [alSet, h, alGet, ih]

theorem alGet_alSet_ne {α : Type} (d : List (String × α)) (k k' : String) (v : α)
    (h : k' ≠ k) : alGet (alSet d k v) k' = alGet d k' := by
  induction d with
  | nil =>
      simp only [alSet, alGet]
      have hkk : (k == k') = false := by
        simp only [beq_eq_false_iff_ne, ne_eq]
        exact fun hk => h hk.symm
      simp [hkk]
  | cons hd t ih =>
      obtain ⟨a, b⟩ := hd
      have hkk : (k == k') = false := by
        simp only [beq_eq_false_iff_ne, ne_eq]
        exact fun hk => h hk.symm
      by_cases ha : a == k
      · have hak : a = k := by simpa [beq_iff_eq] using ha
        have hak' : (a == k') = false := by
          subst hak
          exact hkk
        simp [alSet, ha, alGet, hkk, hak']
      · by_cases hak' : a == k'
        · simp [alSet, ha, alGet, hak']
        · simp [alSet, ha, alGet, hak', ih]

/-! ## Claim counterexamples and concrete evaluations -/

/-- C1 counterexample: the primary (TMDB) populates `US` with `netflix` while
`DE` is missing, so the secondary is consulted — and it is then called for
`US` as well, a country the primary already populated, contradicting the
claim that it is called only for the missing countries. -/
theorem c1_counterexample :
    alGet (tmdbPhase
      { tmdbEnabled := true, saEnabled := true, utellyEnabled := false,
        idMappingCache := fun _ => some 100,
        providerDataCache := fun _ => some [("US", ["Netflix"])],
        tmdbFind := fun _ => TMDBFindOutcome.notFound,
        tmdbProviders := fun _ => TMDBProvOutcome.failure,
        saLookup := fun _ _ => SAOutcome.ok
          [("netflix", [{ type := "subscription", link := "L", quality := "hd",
                          expiryDate := Val.null }])],
        utellyLookup := fun _ _ => UOutcome.failure }
      "tt0000001" ["US", "DE"]).1.countries "US" =
      some [("netflix", tmdbProviderEntry)] ∧
    (getSeriesAvailability
      { tmdbEnabled := true, saEnabled := true, utellyEnabled := false,
        idMappingCache := fun _ => some 100,
        providerDataCache := fun _ => some [("US", ["Netflix"])],
        tmdbFind := fun _ => TMDBFindOutcome.notFound,
        tmdbProviders := fun _ => TMDBProvOutcome.failure,
        saLookup := fun _ _ => SAOutcome.ok
          [("netflix", [{ type := "subscription", link := "L", quality := "hd",
                          expiryDate := Val.null }])],
        utellyLookup := fun _ _ => UOutcome.failure }
      "tt0000001" ["US", "DE"]).2 = [Request.sa "US", Request.sa "DE"] := by
  constructor
  · decide
  · decide

/-- C2 counterexample: a monitored season 0 is counted among the monitored
seasons and appears in `affectedSeasons`, contradicting the claimed
season-0 exclusion. -/
theorem c2_counterexample :
    (makeSyncDecision
      { id := 1, title := "S", imdbId := some "tt0000002",
        seasons := [{ seasonNumber := 0, monitored := true },
                    { seasonNumber := 1, monitored := true }] }
      [("netflix", { available := true, seasons := [0] })]
      "unmonitor").affectedSeasons = some [0] ∧
    (makeSyncDecision
      { id := 1, title := "S", imdbId := some "tt0000002",
        seasons := [{ seasonNumber := 0, monitored := true },
                    { seasonNumber := 1, monitored := true }] }
      [("netflix", { available := true, seasons := [0] })]
      "unmonitor").scope = "seasons" ∧
    (makeSyncDecision
      { id := 1, title := "S", imdbId := some "tt0000002",
        seasons := [{ seasonNumber := 0, monitored := true },
                    { seasonNumber := 1, monitored := true }] }
      [("netflix", { available := true, seasons := [0] })]
      "unmonitor").shouldProcess = true := by
  refine ⟨?_, ?_, ?_⟩ <;> decide

/-- C4 counterexample: a `TMDBCache` provider-data read that finds an expired
entry misses but leaves the expired row in the backing store, contradicting
the claimed removal-on-read. -/
theorem c4_counterexample :
    tmdbCacheGetProviderData [⟨"providers:42", "netflix", 5⟩] 10 42 none =
      (none, [⟨"providers:42", "netflix", 5⟩]) ∧
    tmdbEntryIsExpired 10 ⟨"providers:42", "netflix", 5⟩ = true := by
  constructor
  · decide
  · decide

/-- C5 counterexample: the identifier `tt9999999` is blacklisted at the
default threshold 1, yet the aggregator lookup still issues an HTTP find
request — `ProviderManager.get_series_availability` never consults the
blacklist. -/
theorem c5_counterexample :
    isBlacklisted [(9999999, { reason := "api error", failureCount := 1,
                               firstFailure := 0, lastFailure := 0 })]
      1 9999999 = true ∧
    (getSeriesAvailability
      { tmdbEnabled := true, saEnabled := false, utellyEnabled := false,
        idMappingCache := fun _ => none,
        providerDataCache := fun _ => none,
        tmdbFind := fun _ => TMDBFindOutcome.notFound,
        tmdbProviders := fun _ => TMDBProvOutcome.failure,
        saLookup := fun _ _ => SAOutcome.failure,
        utellyLookup := fun _ _ => UOutcome.failure }
      "tt9999999" ["US"]).2 = [Request.tmdbFind] := by
  constructor
  · decide
  · decide

/-- C6 counterexample: in the closed state with two recorded failures the
call is permitted and the function succeeds, yet the breaker still holds
`failureCount = 2` afterwards — the success was not recorded, contradicting
the claim that a success is recorded in every permitted state. -/
theorem c6_counterexample :
    ((({ failureThreshold := 3, recoveryTimeout := 60, failureCount := 2,
         lastFailureTime := none, state := "closed" } : CircuitBreaker).canAttemptCall
        0).1 = true) ∧
    (CircuitBreaker.call
      { failureThreshold := 3, recoveryTimeout := 60, failureCount := 2,
        lastFailureTime := none, state := "closed" } 0
      (Except.ok (0 : Nat) : Except String Nat)).1 = CallOutcome.ok 0 ∧
    (CircuitBreaker.call
      { failureThreshold := 3, recoveryTimeout := 60, failureCount := 2,
        lastFailureTime := none, state := "closed" } 0
      (Except.ok (0 : Nat) : Except String Nat)).2.1.failureCount = 2 ∧
    ({ failureThreshold := 3, recoveryTimeout := 60, failureCount := 2,
       lastFailureTime := none, state := "closed" } : CircuitBreaker).recordSuccess.failureCount
      = 0 := by
  refine ⟨?_, ?_, ?_, ?_⟩ <;> decide

/-- C7 counterexample: seasons `[1, 2]` where only the call for season 2
succeeds — the result is a success, but its message names season 1 (the
prefix `affected_seasons[:success_count]`), not the season that actually
succeeded. -/
theorem c7_counterexample :
    (executeSyncDecision false
      { unmonitorSeason := fun _ n => if n == 2 then PVROutcome.ok true else PVROutcome.ok false,
        unmonitorSeries := fun _ => PVROutcome.ok false,
        deleteSeries := fun _ _ => PVROutcome.ok false,
        unmonitorAndDeleteSeason := fun _ _ => PVROutcome.ok false }
      { seriesId := 1, seriesTitle := "X", action := "unmonitor", shouldProcess := true,
        reason := "r", provider := some "netflix", affectedSeasons := some [1, 2],
        scope := "seasons" }).1.message =
      "Unmonitored seasons 1 of series 'X' (r)" ∧
    (executeSyncDecision false
      { unmonitorSeason := fun _ n => if n == 2 then PVROutcome.ok true else PVROutcome.ok false,
        unmonitorSeries := fun _ => PVROutcome.ok false,
        deleteSeries := fun _ _ => PVROutcome.ok false,
        unmonitorAndDeleteSeason := fun _ _ => PVROutcome.ok false }
      { seriesId := 1, seriesTitle := "X", action := "unmonitor", shouldProcess := true,
        reason := "r", provider := some "netflix", affectedSeasons := some [1, 2],
        scope := "seasons" }).1.success = true ∧
    succeededSeasons
      { unmonitorSeason := fun _ n => if n == 2 then PVROutcome.ok true else PVROutcome.ok false,
        unmonitorSeries := fun _ => PVROutcome.ok false,
        deleteSeries := fun _ _ => PVROutcome.ok false,
        unmonitorAndDeleteSeason := fun _ _ => PVROutcome.ok false }
      1 [1, 2] = [2] ∧
    (executeSyncDecision false
      { unmonitorSeason := fun _ n => if n == 2 then PVROutcome.ok true else PVROutcome.ok false,
        unmonitorSeries := fun _ => PVROutcome.ok false,
        deleteSeries := fun _ _ => PVROutcome.ok false,
        unmonitorAndDeleteSeason := fun _ _ => PVROutcome.ok false }
      { seriesId := 1, seriesTitle := "X", action := "unmonitor", shouldProcess := true,
        reason := "r", provider := some "netflix", affectedSeasons := some [1, 2],
        scope := "seasons" }).2 =
      [PVRCall.unmonitorSeason 1 1, PVRCall.unmonitorSeason 1 2] := by
  refine ⟨?_, ?_, ?_, ?_⟩ <;> decide

/-- C8 counterexample: a provider first inserted by the primary with
`source = "tmdb"` and non-empty `type = "subscription"` has both fields
unconditionally overwritten by the secondary merge, contradicting the
claimed only-empty-fields overwrite and source preservation. -/
theorem c8_counterexample :
    (alGet ((alGet (mergeStreamingAvailabilityData
      { imdbId := "tt0000001", tmdbId := some 1,
        countries := [("US", [("netflix", tmdbProviderEntry)])],
        sources := ["tmdb"] }
      [("US", [("netflix", [{ type := "rent", link := "L", quality := "hd",
                              expiryDate := Val.null }])])]
      ["US"]).countries "US").getD []) "netflix").map (fun e => alGet e "source") =
      some (some (Val.str "streaming_availability")) ∧
    (alGet ((alGet (mergeStreamingAvailabilityData
      { imdbId := "tt0000001", tmdbId := some 1,
        countries := [("US", [("netflix", tmdbProviderEntry)])],
        sources := ["tmdb"] }
      [("US", [("netflix", [{ type := "rent", link := "L", quality := "hd",
                              expiryDate := Val.null }])])]
      ["US"]).countries "US").getD []) "netflix").map (fun e => alGet e "type") =
      some (some (Val.str "rent")) ∧
    alGet tmdbProviderEntry "source" = some (Val.str "tmdb") ∧
    alGet tmdbProviderEntry "type" = some (Val.str "subscription") := by
  refine ⟨?_, ?_, ?_, ?_⟩ <;> decide

/-- C9: the validator accepts exactly `tt` + 7 digits, so the 8-digit id
`tt12345678` — valid per the claim and per the repository's own test
`test_validate_imdb_id_valid` — is rejected before any HTTP request. -/
theorem c9_validator_eval :
    validateImdbId "tt12345678" = false ∧
    validateImdbId "tt1234567" = true ∧
    (findSeriesByImdbId
      { tmdbEnabled := true, saEnabled := false, utellyEnabled := false,
        idMappingCache := fun _ => none,
        providerDataCache := fun _ => none,
        tmdbFind := fun _ => TMDBFindOutcome.found 7,
        tmdbProviders := fun _ => TMDBProvOutcome.failure,
        saLookup := fun _ _ => SAOutcome.failure,
        utellyLookup := fun _ _ => UOutcome.failure }
      "tt12345678").1 = Except.error TMDBErrKind.invalidId ∧
    (findSeriesByImdbId
      { tmdbEnabled := true, saEnabled := false, utellyEnabled := false,
        idMappingCache := fun _ => none,
        providerDataCache := fun _ => none,
        tmdbFind := fun _ => TMDBFindOutcome.found 7,
        tmdbProviders := fun _ => TMDBProvOutcome.failure,
        saLookup := fun _ _ => SAOutcome.failure,
        utellyLookup := fun _ _ => UOutcome.failure }
      "tt12345678").2 = [] := by
  refine ⟨by decide, by decide, rfl, by decide⟩

/-- C6 (amended): if `canAttempt` is false, `call` fails with `CircuitOpen`
and the function is not invoked; otherwise the function runs, a failure is
recorded in every permitted state, but a success is recorded only when the
breaker is half-open (in the closed state a success leaves the breaker
unchanged), and the function's error is propagated. -/
theorem c6_call_behaviour (ε α : Type) (cb : CircuitBreaker) (now : Nat)
    (fnRes : Except ε α) :
    ((cb.canAttemptCall now).1 = false →
      (cb.call now fnRes).1 = CallOutcome.circuitOpen ∧
      (cb.call now fnRes).2.2 = false ∧
      (cb.call now fnRes).2.1 = (cb.canAttemptCall now).2) ∧
    ((cb.canAttemptCall now).1 = true →
      (cb.call now fnRes).2.2 = true ∧
      (∀ e, fnRes = Except.error e →
        (cb.call now fnRes).1 = CallOutcome.fnError e ∧
        (cb.call now fnRes).2.1 = ((cb.canAttemptCall now).2).recordFailure now) ∧
      (∀ a, fnRes = Except.ok a →
        (cb.call now fnRes).1 = CallOutcome.ok a ∧
        (cb.call now fnRes).2.1 =
          (if ((cb.canAttemptCall now).2).state == "half-open"
           then ((cb.canAttemptCall now).2).recordSuccess
           else (cb.canAttemptCall now).2))) := by
  rcases hc : cb.canAttemptCall now with ⟨can, cb1⟩
  simp only [CircuitBreaker.call, hc]
  cases can
  · refine ⟨fun _ => ⟨rfl, rfl, rfl⟩, fun h => by simp at h⟩
  · refine ⟨fun h => by simp at h, fun _ => ⟨?_, ?_, ?_⟩⟩
    · cases fnRes with
      | ok a => by_cases hs : (cb1.state == "half-open") = true <;> simp [hs]
      | error e => simp
    · intro e he
      subst he
      simp
    · intro a ha
      subst ha
      by_cases hs : (cb1.state == "half-open") = true <;> simp [hs]

/-- C6 witness: a fresh closed breaker permits the call and the guarded
function is invoked. -/
theorem c6_witness :
    ((CircuitBreaker.init 3 60).canAttemptCall 0).1 = true ∧
    ((CircuitBreaker.init 3 60).call 0
      (Except.ok (1 : Nat) : Except String Nat)).2.2 = true :=
  ⟨by decide,
   ((c6_call_behaviour String Nat (CircuitBreaker.init 3 60) 0
      (Except.ok 1)).2 (by decide)).1⟩

/-- C4 (amended): neither cache read ever returns an entry whose expiry is in
the past; `AvailabilityCache.get` removes an expired entry as part of the
read, while `TMDBCache.get_provider_data` always leaves the store unchanged
(expired rows are only removed by the separate cleanup). -/
theorem c4_cache_get_expiry (store : List CacheRow) (now : Nat) (key : String) :
    (∀ d st, availCacheGet store now key = (some d, st) →
      st = store ∧ ∃ r ∈ store, r.key = key ∧ r.payload = d ∧ now ≤ r.expiresAt) ∧
    (∀ r, store.find? (fun r => r.key == key) = some r → r.expiresAt < now →
      availCacheGet store now key =
        (none, store.filter (fun r => !(r.key == key)))) ∧
    (∀ tmdbId c d st, tmdbCacheGetProviderData store now tmdbId c = (some d, st) →
      st = store ∧ ∃ r ∈ store, r.payload = d ∧ now ≤ r.expiresAt) ∧
    (∀ tmdbId c, (tmdbCacheGetProviderData store now tmdbId c).2 = store) := by
  refine ⟨?_, ?_, ?_, ?_⟩
  · intro d st h
    unfold availCacheGet at h
    split at h
    next r hf =>
      split at h
      next hle =>
        have hd : some r.payload = some d := congrArg Prod.fst h
        have hst : store = st := congrArg Prod.snd h
        refine ⟨hst.symm, r, List.mem_of_find?_eq_some hf, ?_,
          Option.some.inj hd, hle⟩
        have := List.find?_some hf
        simpa [beq_iff_eq] using this
      next hle => simp at h
    next hf => simp at h
  · intro r hf hlt
    have hn : ¬ now ≤ r.expiresAt := by omega
    simp [availCacheGet, hf, hn]
  · intro tmdbId c d st h
    unfold tmdbCacheGetProviderData tmdbCacheGetEntry at h
    dsimp only [] at h
    split at h
    next r hf =>
      split at h
      next hx =>
        have hd : some r.payload = some d := congrArg Prod.fst h
        have hst : store = st := congrArg Prod.snd h
        refine ⟨hst.symm, r, List.mem_of_find?_eq_some hf,
          Option.some.inj hd, ?_⟩
        simp only [Bool.not_eq_eq_eq_not, Bool.not_true, tmdbEntryIsExpired,
          decide_eq_false_iff_not, gt_iff_lt, not_lt] at hx
        exact hx
      next hx => simp at h
    next hf => simp at h
  · intro tmdbId c
    unfold tmdbCacheGetProviderData tmdbCacheGetEntry
    dsimp only []
    split
    next r hf => split <;> rfl
    next hf => rfl

/-- C4 witness: a concrete expired row is removed by an
`AvailabilityCache.get` read. -/
theorem c4_witness :
    availCacheGet [⟨"k", "v", 5⟩] 10 "k" =
      (none, [CacheRow.mk "k" "v" 5].filter (fun r => !(r.key == "k"))) :=
  (c4_cache_get_expiry [⟨"k", "v", 5⟩] 10 "k").2.1 ⟨"k", "v", 5⟩ rfl (by decide)

/-- C3: the planner never emits a decision with action `delete` and scope
`seasons`; whenever the emitted scope is `seasons` (a proper non-empty subset
of the monitored seasons matched), the action is `unmonitor` — the configured
delete is downgraded. -/
theorem c3_no_delete_seasons (series : Series)
    (availability : List (String × ProviderAvail)) (cfgAction : String) :
    (((makeSyncDecision series availability cfgAction).action == "delete") &&
      ((makeSyncDecision series availability cfgAction).scope == "seasons")) = false ∧
    ((makeSyncDecision series availability cfgAction).scope = "seasons" →
      (makeSyncDecision series availability cfgAction).action = "unmonitor") := by
  unfold makeSyncDecision
  rcases hst : (availability.foldl (deciderStep (monitoredSeasonNumbers series))
      (none, 0)).1 with _ | b
  · simp only [hst]
    refine ⟨by simp, fun h => absurd h (by decide)⟩
  · simp only [hst]
    by_cases hlen : (b.seasons.length == b.totalMonitored) = true
    · simp only [hlen, if_pos]
      refine ⟨by simp, fun h => absurd h (by decide)⟩
    · rw [Bool.not_eq_true] at hlen
      simp only [hlen, Bool.false_eq_true, if_false]
      by_cases hda : (cfgAction == "delete") = true
      · simp [hda]
      · rw [Bool.not_eq_true] at hda
        simp [hda]

/-- C3 witness: with configured action `delete` and a proper non-empty subset
of monitored seasons available, the emitted decision is `unmonitor`. -/
theorem c3_witness :
    (makeSyncDecision
      { id := 1, title := "S", imdbId := some "tt0000003",
        seasons := [{ seasonNumber := 1, monitored := true },
                    { seasonNumber := 2, monitored := true }] }
      [("netflix", { available := true, seasons := [1] })]
      "delete").scope = "seasons" ∧
    (makeSyncDecision
      { id := 1, title := "S", imdbId := some "tt0000003",
        seasons := [{ seasonNumber := 1, monitored := true },
                    { seasonNumber := 2, monitored := true }] }
      [("netflix", { available := true, seasons := [1] })]
      "delete").action = "unmonitor" :=
  ⟨by decide,
   (c3_no_delete_seasons
      { id := 1, title := "S", imdbId := some "tt0000003",
        seasons := [{ seasonNumber := 1, monitored := true },
                    { seasonNumber := 2, monitored := true }] }
      [("netflix", { available := true, seasons := [1] })]
      "delete").2 (by decide)⟩

theorem mem_insertAsc {a n : Int} {l : List Int} :
    a ∈ insertAsc n l ↔ a = n ∨ a ∈ l := by
  induction l with
  | nil => simp [insertAsc]
  | cons m t ih =>
      by_cases h : n ≤ m
      · simp [insertAsc, h]
      · simp [insertAsc, h, ih, or_left_comm]

theorem mem_sortInts {a : Int} {l : List Int} : a ∈ sortInts l ↔ a ∈ l := by
  induction l with
  | nil => simp [sortInts]
  | cons x t ih =>
      simp only [sortInts, List.foldr_cons] at ih ⊢
      rw [mem_insertAsc, ih, List.mem_cons]

theorem length_insertAsc (n : Int) (l : List Int) :
    (insertAsc n l).length = l.length + 1 := by
  induction l with
  | nil => rfl
  | cons m t ih =>
      by_cases h : n ≤ m
      · simp [insertAsc, h]
      · simp [insertAsc, h, ih]

theorem sortInts_length (l : List Int) : (sortInts l).length = l.length := by
  induction l with
  | nil => rfl
  | cons x t ih =>
      simp only [sortInts, List.foldr_cons] at ih ⊢
      rw [length_insertAsc, ih, List.length_cons]

theorem sortInts_ne_nil {l : List Int} (h : l ≠ []) : sortInts l ≠ [] := by
  intro hc
  apply h
  have := sortInts_length l
  rw [hc] at this
  exact List.length_eq_zero.mp this.symm

theorem mem_distinctInts {a : Int} {l : List Int} :
    a ∈ distinctInts l ↔ a ∈ l := by
  induction l with
  | nil => simp [distinctInts]
  | cons x t ih =>
      by_cases h : x ∈ t
      · simp only [distinctInts, h, if_pos, ih, List.mem_cons]
        constructor
        · exact Or.inr
        · rintro (rfl | h2)
          · exact h
          · exact h2
      · simp [distinctInts, h, ih]

theorem mem_interInts {a : Int} {A M : List Int} :
    a ∈ interInts A M ↔ a ∈ A ∧ a ∈ M := by
  simp [interInts, List.mem_filter, List.contains, List.elem_iff]

/-- The `matching_seasons` computation yields either the assumed singleton
`[1]` with total 1 or the true intersection with the full monitored count. -/
theorem seasonMatch_spec (A M : List Int) :
    seasonMatch A M = ([1], 1) ∨
    seasonMatch A M = (interInts A M, M.length) := by
  unfold seasonMatch
  by_cases h1 : (A.isEmpty && M.isEmpty) = true
  · rw [if_pos h1]
    exact Or.inl rfl
  · rw [if_neg h1]
    by_cases h2 : M.isEmpty = true
    · rw [if_pos h2]
      exact Or.inl rfl
    · rw [if_neg h2]
      exact Or.inr rfl

/-- Every `best_match` the planner's fold can produce either covers all
monitored seasons or is a non-empty list of monitored season numbers. -/
theorem deciderFold_inv (m : List Int) (items : List (String × ProviderAvail))
    (st : Option BestMatch × Nat)
    (hst : ∀ b, st.1 = some b → b.seasons.length = b.totalMonitored ∨
      (b.seasons ≠ [] ∧ ∀ n ∈ b.seasons, n ∈ m)) :
    ∀ b, (items.foldl (deciderStep m) st).1 = some b →
      b.seasons.length = b.totalMonitored ∨
      (b.seasons ≠ [] ∧ ∀ n ∈ b.seasons, n ∈ m) := by
  induction items generalizing st with
  | nil => simpa using hst
  | cons it rest ih =>
      rw [List.foldl_cons]
      apply ih
      intro b hb
      obtain ⟨best, maxN⟩ := st
      obtain ⟨name, data⟩ := it
      unfold deciderStep at hb
      dsimp only [] at hb
      by_cases hav : data.available
      · rw [if_pos hav] at hb
        by_cases hne : (!(seasonMatch (distinctInts data.seasons)
            (distinctInts m)).1.isEmpty) = true
        · rw [if_pos hne] at hb
          by_cases hgt : (seasonMatch (distinctInts data.seasons)
              (distinctInts m)).1.length > maxN
          · rw [if_pos hgt] at hb
            injection hb with hb
            subst hb
            rcases seasonMatch_spec (distinctInts data.seasons)
                (distinctInts m) with hsm | hsm
            · rw [hsm]
              exact Or.inl rfl
            · rw [hsm]
              rw [hsm] at hne
              refine Or.inr ⟨?_, ?_⟩
              · exact sortInts_ne_nil (by simpa [List.isEmpty_iff] using hne)
              · intro n hn
                rw [mem_sortInts, mem_interInts] at hn
                exact mem_distinctInts.mp hn.2
          · rw [if_neg hgt] at hb
            exact hst b hb
        · rw [if_neg hne] at hb
          exact hst b hb
      · rw [if_neg hav] at hb
        exact hst b hb

/-- C2 (amended): whenever the planner emits scope `seasons`, the affected
seasons are a non-empty subset of the monitored season numbers — with no
season-0 exclusion anywhere (a monitored season 0 participates like any
other season). -/
theorem c2_seasons_subset (series : Series)
    (availability : List (String × ProviderAvail)) (cfgAction : String)
    (h : (makeSyncDecision series availability cfgAction).scope = "seasons") :
    ∃ l, (makeSyncDecision series availability cfgAction).affectedSeasons = some l ∧
      l ≠ [] ∧ ∀ n ∈ l, n ∈ monitoredSeasonNumbers series := by
  have hinv := deciderFold_inv (monitoredSeasonNumbers series) availability (none, 0)
    (by intro b hb; exact Option.noConfusion hb)
  unfold makeSyncDecision at h ⊢
  dsimp only [] at h ⊢
  rcases hst : (availability.foldl (deciderStep (monitoredSeasonNumbers series))
      (none, 0)).1 with _ | b
  · rw [hst] at h
    dsimp only [] at h
    exact absurd h (by decide)
  · rw [hst] at h
    dsimp only [] at h
    dsimp only []
    by_cases hlen : (b.seasons.length == b.totalMonitored) = true
    · rw [if_pos hlen] at h
      dsimp only [] at h
      exact absurd h (by decide)
    · rw [if_neg hlen] at h
      rw [if_neg hlen]
      rcases hinv b hst with hcov | ⟨hne, hsub⟩
      · exact absurd (by simp [hcov] : (b.seasons.length == b.totalMonitored) = true) hlen
      · exact ⟨b.seasons, rfl, hne, hsub⟩

/-- C2 witness: a concrete partial-availability series on which the seasons
scope is emitted with affected seasons among the monitored ones. -/
theorem c2_witness :
    (makeSyncDecision
      { id := 1, title := "S", imdbId := some "tt0000004",
        seasons := [{ seasonNumber := 1, monitored := true },
                    { seasonNumber := 2, monitored := true }] }
      [("netflix", { available := true, seasons := [1] })]
      "unmonitor").scope = "seasons" ∧
    ∃ l, (makeSyncDecision
      { id := 1, title := "S", imdbId := some "tt0000004",
        seasons := [{ seasonNumber := 1, monitored := true },
                    { seasonNumber := 2, monitored := true }] }
      [("netflix", { available := true, seasons := [1] })]
      "unmonitor").affectedSeasons = some l ∧
      l ≠ [] ∧ ∀ n ∈ l, n ∈ monitoredSeasonNumbers
        { id := 1, title := "S", imdbId := some "tt0000004",
          seasons := [{ seasonNumber := 1, monitored := true },
                      { seasonNumber := 2, monitored := true }] } :=
  ⟨by decide,
   c2_seasons_subset
     { id := 1, title := "S", imdbId := some "tt0000004",
       seasons := [{ seasonNumber := 1, monitored := true },
                   { seasonNumber := 2, monitored := true }] }
     [("netflix", { available := true, seasons := [1] })]
     "unmonitor" (by decide)⟩

/-- The unmonitor-seasons loop issues exactly one `unmonitor_season` call per
listed season, in list order. -/
theorem unmonitorSeasonsLoop_log (oracle : PVRClientOracle) (sid : Int)
    (l : List Int) :
    (unmonitorSeasonsLoop oracle sid l).2 =
      l.map (PVRCall.unmonitorSeason sid) := by
  induction l with
  | nil => rfl
  | cons n rest ih =>
      unfold unmonitorSeasonsLoop
      dsimp only []
      cases ho : oracle.unmonitorSeason sid n with
      | ok b => cases b <;> simp [ho, ih]
      | exn m => simp [ho, ih]

/-- C7 (amended): for a live unmonitor decision with scope `seasons` and a
non-empty season list, the executor calls `unmonitor_season` once per season
in list order (the planner supplies the list sorted ascending); with at least
one success the result is a success whose message lists the first
`success_count` seasons of the list (a prefix, not necessarily the seasons
that succeeded); with no success the result is a failure. -/
theorem c7_unmonitor_seasons_exec (oracle : PVRClientOracle) (d : SyncDecision)
    (l : List Int) (ha : d.action = "unmonitor") (hs : d.scope = "seasons")
    (hl : d.affectedSeasons = some l) (hne : l ≠ []) :
    (executeSyncDecision false oracle d).2 =
      l.map (PVRCall.unmonitorSeason d.seriesId) ∧
    (0 < (unmonitorSeasonsLoop oracle d.seriesId l).1 →
      (executeSyncDecision false oracle d).1.success = true ∧
      (executeSyncDecision false oracle d).1.message =
        "Unmonitored seasons " ++
          joinCommaInt (l.take (unmonitorSeasonsLoop oracle d.seriesId l).1) ++
          " of series '" ++ d.seriesTitle ++ "' (" ++ d.reason ++ ")") ∧
    ((unmonitorSeasonsLoop oracle d.seriesId l).1 = 0 →
      (executeSyncDecision false oracle d).1.success = false) := by
  have hhas : hasAffectedSeasons d = true := by
    cases l with
    | nil => exact absurd rfl hne
    | cons x xs => simp [hasAffectedSeasons, hl]
  have hgd : d.affectedSeasons.getD [] = l := by rw [hl]; rfl
  unfold executeSyncDecision
  simp only [ha, hs, hhas, hgd, Bool.false_eq_true, if_false, beq_self_eq_true,
    Bool.and_self, if_true, if_pos]
  by_cases hk : (unmonitorSeasonsLoop oracle d.seriesId l).1 > 0
  · rw [if_pos hk]
    refine ⟨unmonitorSeasonsLoop_log oracle d.seriesId l, fun _ => ⟨rfl, rfl⟩,
      fun h0 => ?_⟩
    omega
  · rw [if_neg hk]
    refine ⟨unmonitorSeasonsLoop_log oracle d.seriesId l, fun hpos => ?_,
      fun _ => rfl⟩
    omega

/-- C7 witness: both calls succeed, the result is a success and lists both
seasons. -/
theorem c7_witness :
    (executeSyncDecision false
      { unmonitorSeason := fun _ _ => PVROutcome.ok true,
        unmonitorSeries := fun _ => PVROutcome.ok false,
        deleteSeries := fun _ _ => PVROutcome.ok false,
        unmonitorAndDeleteSeason := fun _ _ => PVROutcome.ok false }
      { seriesId := 1, seriesTitle := "X", action := "unmonitor",
        shouldProcess := true, reason := "r", provider := some "netflix",
        affectedSeasons := some [1, 2], scope := "seasons" }).2 =
      [PVRCall.unmonitorSeason 1 1, PVRCall.unmonitorSeason 1 2] ∧
    (executeSyncDecision false
      { unmonitorSeason := fun _ _ => PVROutcome.ok true,
        unmonitorSeries := fun _ => PVROutcome.ok false,
        deleteSeries := fun _ _ => PVROutcome.ok false,
        unmonitorAndDeleteSeason := fun _ _ => PVROutcome.ok false }
      { seriesId := 1, seriesTitle := "X", action := "unmonitor",
        shouldProcess := true, reason := "r", provider := some "netflix",
        affectedSeasons := some [1, 2], scope := "seasons" }).1.success = true := by
  have h := c7_unmonitor_seasons_exec
    { unmonitorSeason := fun _ _ => PVROutcome.ok true,
      unmonitorSeries := fun _ => PVROutcome.ok false,
      deleteSeries := fun _ _ => PVROutcome.ok false,
      unmonitorAndDeleteSeason := fun _ _ => PVROutcome.ok false }
    { seriesId := 1, seriesTitle := "X", action := "unmonitor",
      shouldProcess := true, reason := "r", provider := some "netflix",
      affectedSeasons := some [1, 2], scope := "seasons" }
    [1, 2] rfl rfl rfl (by decide)
  exact ⟨h.1, (h.2.1 (by decide)).1⟩

/-- A fold of the planner's loop over providers that are all unavailable
leaves the accumulator unchanged. -/
theorem deciderFold_unavailable (m : List Int)
    (items : List (String × ProviderAvail)) (st : Option BestMatch × Nat)
    (h : ∀ p ∈ items, p.2.available = false) :
    items.foldl (deciderStep m) st = st := by
  induction items generalizing st with
  | nil => rfl
  | cons it rest ih =>
      rw [List.foldl_cons]
      have hit : it.2.available = false := h it (List.mem_cons_self it rest)
      have hstep : deciderStep m st it = st := by
        obtain ⟨best, maxN⟩ := st
        obtain ⟨name, data⟩ := it
        unfold deciderStep
        dsimp only []
        simp only at hit
        rw [if_neg (by simp [hit])]
      rw [hstep]
      exact ih st (fun p hp => h p (List.mem_cons_of_mem it hp))

/-- In the all-unavailable availability map built for a series without an
IMDb id, every configured provider name maps to the unavailable record. -/
theorem alGet_const_map (ps : List StreamingProviderCfg) (x : ProviderAvail)
    (p : StreamingProviderCfg) (hp : p ∈ ps) :
    alGet (ps.map (fun q => (q.name, x))) p.name = some x := by
  induction ps with
  | nil => cases hp
  | cons q rest ih =>
      rw [List.map_cons]
      by_cases hq : (q.name == p.name) = true
      · simp [alGet, hq]
      · rcases List.mem_cons.mp hp with rfl | hmem
        · simp at hq
        · simp only [alGet, hq, Bool.false_eq_true, if_false]
          exact ih hmem

/-- C10: a series carrying no IMDb id triggers no source lookup and no PVR
mutation, is reported unavailable on every configured provider, and yields a
success result with action `none`. -/
theorem c10_no_imdb_id (env : AggEnv) (cfgProviders : List StreamingProviderCfg)
    (userProviders userCountries : List String) (cfgAction : String)
    (dryRun : Bool) (oracle : PVRClientOracle) (series : Series)
    (h : series.imdbId = none) :
    (processSeries env cfgProviders userProviders userCountries cfgAction
      dryRun oracle series).2.1 = [] ∧
    (processSeries env cfgProviders userProviders userCountries cfgAction
      dryRun oracle series).2.2 = [] ∧
    (processSeries env cfgProviders userProviders userCountries cfgAction
      dryRun oracle series).1.success = true ∧
    (processSeries env cfgProviders userProviders userCountries cfgAction
      dryRun oracle series).1.actionTaken = "none" ∧
    ∀ p ∈ cfgProviders,
      alGet (checkSeriesAvailability env cfgProviders userProviders
        userCountries series).1 p.name =
        some { available := false, seasons := [] } := by
  have hca : checkSeriesAvailability env cfgProviders userProviders
      userCountries series =
      (cfgProviders.map (fun p => (p.name, { available := false, seasons := [] })),
       []) := by
    unfold checkSeriesAvailability
    rw [h]
  have hall : ∀ p ∈ cfgProviders.map (fun p =>
      (p.name, ({ available := false, seasons := [] } : ProviderAvail))),
      p.2.available = false := by
    intro p hp
    rcases List.mem_map.mp hp with ⟨q, _, rfl⟩
    rfl
  have hdec : (makeSyncDecision series
      (cfgProviders.map (fun p =>
        (p.name, ({ available := false, seasons := [] } : ProviderAvail))))
      cfgAction).shouldProcess = false := by
    unfold makeSyncDecision
    dsimp only []
    rw [deciderFold_unavailable _ _ _ hall]
  have hps : processSeries env cfgProviders userProviders userCountries
      cfgAction dryRun oracle series =
      ({ seriesId := series.id, seriesTitle := series.title, success := true,
         actionTaken := "none",
         message := (makeSyncDecision series
           (cfgProviders.map (fun p =>
             (p.name, ({ available := false, seasons := [] } : ProviderAvail))))
           cfgAction).reason }, [], []) := by
    unfold processSeries
    rw [hca]
    dsimp only []
    rw [if_neg (by rw [hdec]; simp)]
  refine ⟨by rw [hps], by rw [hps], by rw [hps], by rw [hps], ?_⟩
  intro p hp
  rw [hca]
  exact alGet_const_map cfgProviders _ p hp

/-- C10 witness: a concrete series without an IMDb id produces the no-action
success result with no lookups. -/
theorem c10_witness :
    (processSeries
      { tmdbEnabled := true, saEnabled := false, utellyEnabled := false,
        idMappingCache := fun _ => none,
        providerDataCache := fun _ => none,
        tmdbFind := fun _ => TMDBFindOutcome.notFound,
        tmdbProviders := fun _ => TMDBProvOutcome.failure,
        saLookup := fun _ _ => SAOutcome.failure,
        utellyLookup := fun _ _ => UOutcome.failure }
      [{ name := "netflix", country := "US" }] ["netflix"] ["US"]
      "unmonitor" true
      { unmonitorSeason := fun _ _ => PVROutcome.ok true,
        unmonitorSeries := fun _ => PVROutcome.ok true,
        deleteSeries := fun _ _ => PVROutcome.ok true,
        unmonitorAndDeleteSeason := fun _ _ => PVROutcome.ok true }
      { id := 1, title := "T", imdbId := none,
        seasons := [{ seasonNumber := 1, monitored := true }] }).2.1 = [] ∧
    (processSeries
      { tmdbEnabled := true, saEnabled := false, utellyEnabled := false,
        idMappingCache := fun _ => none,
        providerDataCache := fun _ => none,
        tmdbFind := fun _ => TMDBFindOutcome.notFound,
        tmdbProviders := fun _ => TMDBProvOutcome.failure,
        saLookup := fun _ _ => SAOutcome.failure,
        utellyLookup := fun _ _ => UOutcome.failure }
      [{ name := "netflix", country := "US" }] ["netflix"] ["US"]
      "unmonitor" true
      { unmonitorSeason := fun _ _ => PVROutcome.ok true,
        unmonitorSeries := fun _ => PVROutcome.ok true,
        deleteSeries := fun _ _ => PVROutcome.ok true,
        unmonitorAndDeleteSeason := fun _ _ => PVROutcome.ok true }
      { id := 1, title := "T", imdbId := none,
        seasons := [{ seasonNumber := 1, monitored := true }] }).1.success = true := by
  have h := c10_no_imdb_id
    { tmdbEnabled := true, saEnabled := false, utellyEnabled := false,
      idMappingCache := fun _ => none,
      providerDataCache := fun _ => none,
      tmdbFind := fun _ => TMDBFindOutcome.notFound,
      tmdbProviders := fun _ => TMDBProvOutcome.failure,
      saLookup := fun _ _ => SAOutcome.failure,
      utellyLookup := fun _ _ => UOutcome.failure }
    [{ name := "netflix", country := "US" }] ["netflix"] ["US"]
    "unmonitor" true
    { unmonitorSeason := fun _ _ => PVROutcome.ok true,
      unmonitorSeries := fun _ => PVROutcome.ok true,
      deleteSeries := fun _ _ => PVROutcome.ok true,
      unmonitorAndDeleteSeason := fun _ _ => PVROutcome.ok true }
    { id := 1, title := "T", imdbId := none,
      seasons := [{ seasonNumber := 1, monitored := true }] } rfl
  exact ⟨h.1, h.2.2.1⟩

/-- One secondary-merge detail step overwrites `source`, `link` and `type`
unconditionally. -/
theorem saDetailUpdate_get (e : List (String × Val)) (d : SADetail) :
    alGet (saDetailUpdate e d) "source" = some (Val.str "streaming_availability") ∧
    alGet (saDetailUpdate e d) "link" = some (Val.str d.link) ∧
    alGet (saDetailUpdate e d) "type" = some (Val.str d.type) := by
  unfold saDetailUpdate alUpdate
  simp only [List.foldl_cons, List.foldl_nil]
  refine ⟨alGet_alSet_self .., ?_, ?_⟩
  · rw [alGet_alSet_ne _ _ _ _ (by decide), alGet_alSet_ne _ _ _ _ (by decide),
      alGet_alSet_ne _ _ _ _ (by decide), alGet_alSet_self]
  · rw [alGet_alSet_ne _ _ _ _ (by decide), alGet_alSet_ne _ _ _ _ (by decide),
      alGet_alSet_ne _ _ _ _ (by decide), alGet_alSet_ne _ _ _ _ (by decide),
      alGet_alSet_self]

/-- After the secondary merge folds its details, `source`, `link` and `type`
hold the values of the last detail, regardless of the entry they started
from. -/
theorem foldl_saDetailUpdate_last (details : List SADetail)
    (e : List (String × Val)) (dl : SADetail) (h : details.getLast? = some dl) :
    alGet (details.foldl saDetailUpdate e) "source" =
      some (Val.str "streaming_availability") ∧
    alGet (details.foldl saDetailUpdate e) "link" = some (Val.str dl.link) ∧
    alGet (details.foldl saDetailUpdate e) "type" = some (Val.str dl.type) := by
  induction details generalizing e with
  | nil => cases h
  | cons d rest ih =>
      cases rest with
      | nil =>
          have hd : d = dl := by simpa using h
          subst hd
          simpa using saDetailUpdate_get e d
      | cons d2 r2 =>
          rw [List.getLast?_cons_cons] at h
          rw [List.foldl_cons]
          exact ih (saDetailUpdate e d) h

/-- One tertiary-merge detail step: `link` is preserved whenever the entry
already has a `link` key. -/
theorem uDetailUpdate_link (e : List (String × Val)) (d : UDetail)
    (h : alHas e "link" = true) :
    alGet (uDetailUpdate e d) "link" = alGet e "link" ∧
    alHas (uDetailUpdate e d) "link" = true := by
  unfold uDetailUpdate alUpdate
  rw [if_pos h]
  simp only [List.foldl_cons, List.foldl_nil]
  have hlk : alGet (alSet (alSet (alSet e "type" (Val.str d.type)) "icon"
      (Val.str d.icon)) "source" (Val.str "utelly")) "link" = alGet e "link" := by
    rw [alGet_alSet_ne _ _ _ _ (by decide), alGet_alSet_ne _ _ _ _ (by decide),
      alGet_alSet_ne _ _ _ _ (by decide)]
  refine ⟨hlk, ?_⟩
  unfold alHas at h ⊢
  rw [hlk]
  exact h

/-- The tertiary merge never changes an existing `link` field, no matter how
many details are folded. -/
theorem foldl_uDetailUpdate_link (details : List UDetail)
    (e : List (String × Val)) (h : alHas e "link" = true) :
    alGet (details.foldl uDetailUpdate e) "link" = alGet e "link" := by
  induction details generalizing e with
  | nil => rfl
  | cons d rest ih =>
      rw [List.foldl_cons]
      have hstep := uDetailUpdate_link e d h
      rw [ih (uDetailUpdate e d) hstep.2, hstep.1]

/-- The tertiary merge retags `source` as `utelly` whenever at least one
detail is folded. -/
theorem foldl_uDetailUpdate_source (details : List UDetail)
    (e : List (String × Val)) (h : details ≠ []) :
    alGet (details.foldl uDetailUpdate e) "source" = some (Val.str "utelly") := by
  induction details generalizing e with
  | nil => exact absurd rfl h
  | cons d rest ih =>
      rw [List.foldl_cons]
      cases rest with
      | nil =>
          unfold uDetailUpdate alUpdate
          simp only [List.foldl_cons, List.foldl_nil]
          exact alGet_alSet_self ..
      | cons d2 r2 => exact ih (uDetailUpdate e d) (by simp)

/-- C8 (amended): for a provider entry already present in a country, the
secondary merge unconditionally overwrites `type`, `link` (and quality and
expiry) and retags `source` as the secondary source — the first-insertion
source is not preserved; the tertiary merge writes `link` only when the entry
has no `link` key, but unconditionally retags `source` as the tertiary
source. -/
theorem c8_merge_semantics (e1 : List (String × Val)) (d1 : List SADetail)
    (dl : SADetail) (h1 : d1.getLast? = some dl)
    (e2 : List (String × Val)) (d2 : List UDetail)
    (h2 : alHas e2 "link" = true) :
    alGet (mergeSAProviderEntry (some e1) d1) "source" =
      some (Val.str "streaming_availability") ∧
    alGet (mergeSAProviderEntry (some e1) d1) "link" = some (Val.str dl.link) ∧
    alGet (mergeSAProviderEntry (some e1) d1) "type" = some (Val.str dl.type) ∧
    alGet (mergeUtellyProviderEntry (some e2) d2) "link" = alGet e2 "link" ∧
    (d2 ≠ [] → alGet (mergeUtellyProviderEntry (some e2) d2) "source" =
      some (Val.str "utelly")) := by
  have hsa := foldl_saDetailUpdate_last d1 e1 dl h1
  exact ⟨hsa.1, hsa.2.1, hsa.2.2,
    foldl_uDetailUpdate_link d2 e2 h2,
    fun hne => foldl_uDetailUpdate_source d2 e2 hne⟩

/-- C8 witness: a TMDB-inserted entry merged with one secondary detail and an
entry with a link merged with one tertiary detail. -/
theorem c8_witness :
    alGet (mergeSAProviderEntry (some tmdbProviderEntry)
      [{ type := "rent", link := "L", quality := "hd", expiryDate := Val.null }])
      "source" = some (Val.str "streaming_availability") ∧
    alGet (mergeUtellyProviderEntry
      (some [("link", Val.str "L0"), ("source", Val.str "tmdb")])
      [{ type := "buy", url := "U", icon := "I" }]) "link" =
      alGet [("link", Val.str "L0"), ("source", Val.str "tmdb")] "link" := by
  have h := c8_merge_semantics tmdbProviderEntry
    [{ type := "rent", link := "L", quality := "hd", expiryDate := Val.null }]
    { type := "rent", link := "L", quality := "hd", expiryDate := Val.null } rfl
    [("link", Val.str "L0"), ("source", Val.str "tmdb")]
    [{ type := "buy", url := "U", icon := "I" }] (by decide)
  exact ⟨h.1, h.2.2.2.1⟩

/-- The validated find step issues at most the single find request. -/
theorem findSeries_requests (env : AggEnv) (imdb : String) :
    ∀ r ∈ (findSeriesByImdbId env imdb).2, r = Request.tmdbFind := by
  intro r hr
  unfold findSeriesByImdbId at hr
  split at hr
  · simp at hr
  · split at hr <;> simpa using hr

/-- The provider-data step adds at most the providers request to its input
log. -/
theorem getTmdbProvidersStep_requests (env : AggEnv) (tid : Nat)
    (q0 : List Request) :
    ∀ r ∈ (getTmdbProvidersStep env tid q0).2, r ∈ q0 ∨ r = Request.tmdbProviders := by
  intro r hr
  unfold getTmdbProvidersStep at hr
  split at hr
  · exact Or.inl hr
  · split at hr <;>
      · rcases List.mem_append.mp hr with h | h
        · exact Or.inl h
        · exact Or.inr (by simpa using h)

/-- The TMDB phase only ever issues find and providers requests. -/
theorem getTmdbData_requests (env : AggEnv) (imdb : String) :
    ∀ r ∈ (getTmdbData env imdb).2,
      r = Request.tmdbFind ∨ r = Request.tmdbProviders := by
  intro r hr
  unfold getTmdbData at hr
  split at hr
  · simp at hr
  · split at hr
    · rcases getTmdbProvidersStep_requests env _ _ r hr with h | h
      · simp at h
      · exact Or.inr h
    · dsimp only [] at hr
      split at hr
      · rcases getTmdbProvidersStep_requests env _ _ r hr with h | h
        · exact Or.inl (findSeries_requests env imdb r h)
        · exact Or.inr h
      · exact Or.inl (findSeries_requests env imdb r hr)

/-- The record-building of the TMDB phase does not change the request log of
`_get_tmdb_data`. -/
theorem tmdbPhase_requests (env : AggEnv) (imdb : String) (cs : List String) :
    (tmdbPhase env imdb cs).2 = (getTmdbData env imdb).2 := by
  unfold tmdbPhase
  dsimp only []
  split <;> rfl

/-- Every request the Streaming Availability loop issues is for one of the
requested countries (or was already in the input log). -/
theorem getSADataAux_requests (env : AggEnv) (imdb : String) :
    ∀ (cs : List String) acc log r, r ∈ (getSADataAux env imdb cs acc log).2 →
      r ∈ log ∨ ∃ c ∈ cs, r = Request.sa c := by
  intro cs
  induction cs with
  | nil =>
      intro acc log r hr
      unfold getSADataAux at hr
      exact Or.inl hr
  | cons c rest ih =>
      intro acc log r hr
      unfold getSADataAux at hr
      rcases ho : env.saLookup imdb c with provs | _ | _ <;> rw [ho] at hr
      · rcases ih _ _ r hr with hin | ⟨c', hc', hr'⟩
        · rcases List.mem_append.mp hin with h | h
          · exact Or.inl h
          · exact Or.inr ⟨c, List.mem_cons_self c rest, by simpa using h⟩
        · exact Or.inr ⟨c', List.mem_cons_of_mem c hc', hr'⟩
      · rcases List.mem_append.mp hr with h | h
        · exact Or.inl h
        · exact Or.inr ⟨c, List.mem_cons_self c rest, by simpa using h⟩
      · rcases ih _ _ r hr with hin | ⟨c', hc', hr'⟩
        · rcases List.mem_append.mp hin with h | h
          · exact Or.inl h
          · exact Or.inr ⟨c, List.mem_cons_self c rest, by simpa using h⟩
        · exact Or.inr ⟨c', List.mem_cons_of_mem c hc', hr'⟩

/-- Any request the SA phase issues certifies that its guard was true, and
names one of the requested countries. -/
theorem saPhase_requests (env : AggEnv) (imdb : String) (cs : List String)
    (r1 : AggResult) (r : Request) (hr : r ∈ (saPhase env imdb cs r1).2) :
    (env.saEnabled && shouldUseStreamingAvailability r1 cs) = true ∧
    ∃ c ∈ cs, r = Request.sa c := by
  unfold saPhase at hr
  by_cases hg : (env.saEnabled && shouldUseStreamingAvailability r1 cs) = true
  · rw [if_pos hg] at hr
    dsimp only [] at hr
    have hr2 : r ∈ (getSAData env imdb cs).2 := by
      split at hr <;> exact hr
    rcases getSADataAux_requests env imdb cs [] [] r hr2 with hin | hex
    · simp at hin
    · exact ⟨hg, hex⟩
  · rw [if_neg hg] at hr
    simp at hr

/-- The Utelly loop counterpart of `getSADataAux_requests`. -/
theorem getUtellyDataAux_requests (env : AggEnv) (imdb : String) :
    ∀ (cs : List String) acc log r, r ∈ (getUtellyDataAux env imdb cs acc log).2 →
      r ∈ log ∨ ∃ c ∈ cs, r = Request.utelly c := by
  intro cs
  induction cs with
  | nil =>
      intro acc log r hr
      unfold getUtellyDataAux at hr
      exact Or.inl hr
  | cons c rest ih =>
      intro acc log r hr
      unfold getUtellyDataAux at hr
      rcases ho : env.utellyLookup imdb c with provs | _ | _ <;> rw [ho] at hr
      · rcases ih _ _ r hr with hin | ⟨c', hc', hr'⟩
        · rcases List.mem_append.mp hin with h | h
          · exact Or.inl h
          · exact Or.inr ⟨c, List.mem_cons_self c rest, by simpa using h⟩
        · exact Or.inr ⟨c', List.mem_cons_of_mem c hc', hr'⟩
      · rcases List.mem_append.mp hr with h | h
        · exact Or.inl h
        · exact Or.inr ⟨c, List.mem_cons_self c rest, by simpa using h⟩
      · rcases ih _ _ r hr with hin | ⟨c', hc', hr'⟩
        · rcases List.mem_append.mp hin with h | h
          · exact Or.inl h
          · exact Or.inr ⟨c, List.mem_cons_self c rest, by simpa using h⟩
        · exact Or.inr ⟨c', List.mem_cons_of_mem c hc', hr'⟩

/-- Any request the Utelly phase issues certifies that its guard was true,
and names one of the requested countries. -/
theorem utellyPhase_requests (env : AggEnv) (imdb : String) (cs : List String)
    (r2 : AggResult) (r : Request) (hr : r ∈ (utellyPhase env imdb cs r2).2) :
    (env.utellyEnabled && shouldUseUtelly r2 cs) = true ∧
    ∃ c ∈ cs, r = Request.utelly c := by
  unfold utellyPhase at hr
  by_cases hg : (env.utellyEnabled && shouldUseUtelly r2 cs) = true
  · rw [if_pos hg] at hr
    dsimp only [] at hr
    have hr2 : r ∈ (getUtellyData env imdb cs).2 := by
      split at hr <;> exact hr
    rcases getUtellyDataAux_requests env imdb cs [] [] r hr2 with hin | hex
    · simp at hin
    · exact ⟨hg, hex⟩
  · rw [if_neg hg] at hr
    simp at hr

/-- C1 (amended): a fallback source is consulted only when the primary
produced zero providers for some requested country (its `_should_use_...`
guard), and every lookup it issues names one of the requested countries — the
loop covers the full requested list, not only the missing countries. -/
theorem c1_fallback_guard (env : AggEnv) (imdb : String)
    (countries : List String) (c : String) :
    (Request.sa c ∈ (getSeriesAvailability env imdb countries).2 →
      shouldUseStreamingAvailability (tmdbPhase env imdb countries).1 countries
        = true ∧ c ∈ countries) ∧
    (Request.utelly c ∈ (getSeriesAvailability env imdb countries).2 →
      shouldUseUtelly
        (saPhase env imdb countries (tmdbPhase env imdb countries).1).1 countries
        = true ∧ c ∈ countries) := by
  constructor
  · intro hmem
    unfold getSeriesAvailability at hmem
    dsimp only [] at hmem
    rcases List.mem_append.mp hmem with h12 | h3
    · rcases List.mem_append.mp h12 with h1 | h2
      · rw [tmdbPhase_requests] at h1
        rcases getTmdbData_requests env imdb _ h1 with h | h <;> cases h
      · obtain ⟨hg, c', hc', heq⟩ := saPhase_requests env imdb countries _ _ h2
        obtain rfl : c = c' := by
          injection heq
        exact ⟨(Bool.and_eq_true .. ▸ hg).2, hc'⟩
    · obtain ⟨_, c', _, heq⟩ := utellyPhase_requests env imdb countries _ _ h3
      cases heq
  · intro hmem
    unfold getSeriesAvailability at hmem
    dsimp only [] at hmem
    rcases List.mem_append.mp hmem with h12 | h3
    · rcases List.mem_append.mp h12 with h1 | h2
      · rw [tmdbPhase_requests] at h1
        rcases getTmdbData_requests env imdb _ h1 with h | h <;> cases h
      · obtain ⟨_, c', _, heq⟩ := saPhase_requests env imdb countries _ _ h2
        cases heq
    · obtain ⟨hg, c', hc', heq⟩ := utellyPhase_requests env imdb countries _ _ h3
      obtain rfl : c = c' := by
        injection heq
      exact ⟨(Bool.and_eq_true .. ▸ hg).2, hc'⟩

/-- C1 witness: in the counterexample environment the SA request for `DE`
certifies that the fallback guard was true and `DE` was requested. -/
theorem c1_witness :
    Request.sa "DE" ∈ (getSeriesAvailability
      { tmdbEnabled := true, saEnabled := true, utellyEnabled := false,
        idMappingCache := fun _ => some 100,
        providerDataCache := fun _ => some [("US", ["Netflix"])],
        tmdbFind := fun _ => TMDBFindOutcome.notFound,
        tmdbProviders := fun _ => TMDBProvOutcome.failure,
        saLookup := fun _ _ => SAOutcome.ok
          [("netflix", [{ type := "subscription", link := "L", quality := "hd",
                          expiryDate := Val.null }])],
        utellyLookup := fun _ _ => UOutcome.failure }
      "tt0000001" ["US", "DE"]).2 ∧
    shouldUseStreamingAvailability (tmdbPhase
      { tmdbEnabled := true, saEnabled := true, utellyEnabled := false,
        idMappingCache := fun _ => some 100,
        providerDataCache := fun _ => some [("US", ["Netflix"])],
        tmdbFind := fun _ => TMDBFindOutcome.notFound,
        tmdbProviders := fun _ => TMDBProvOutcome.failure,
        saLookup := fun _ _ => SAOutcome.ok
          [("netflix", [{ type := "subscription", link := "L", quality := "hd",
                          expiryDate := Val.null }])],
        utellyLookup := fun _ _ => UOutcome.failure }
      "tt0000001" ["US", "DE"]).1 ["US", "DE"] = true ∧
    "DE" ∈ ["US", "DE"] := by
  have h := (c1_fallback_guard
    { tmdbEnabled := true, saEnabled := true, utellyEnabled := false,
      idMappingCache := fun _ => some 100,
      providerDataCache := fun _ => some [("US", ["Netflix"])],
      tmdbFind := fun _ => TMDBFindOutcome.notFound,
      tmdbProviders := fun _ => TMDBProvOutcome.failure,
      saLookup := fun _ _ => SAOutcome.ok
        [("netflix", [{ type := "subscription", link := "L", quality := "hd",
                        expiryDate := Val.null }])],
      utellyLookup := fun _ _ => UOutcome.failure }
    "tt0000001" ["US", "DE"] "DE").1 (by decide)
  exact ⟨by decide, h.1, h.2⟩

/-- C5 (amended): the blacklist short-circuit lives in the Jellyseerr
availability lookup: with a client and cache configured and a truthy,
blacklisted TVDB id, `_get_jellyseerr_availability` returns the blacklisted
marker without issuing any Jellyseerr request and without touching the
breaker or the blacklist. -/
theorem c5_blacklist_gates_jellyseerr (env : JellyEnv) (t : Nat)
    (imdb : Option String) (hc : env.hasClient = true) (hk : env.hasCache = true)
    (ht : t ≠ 0)
    (hb : isBlacklisted env.blacklist env.blacklistThreshold t = true) :
    getJellyseerrAvailability env (some t) imdb =
      { out := JellyOut.blacklisted t, requests := [], breaker := env.breaker,
        blacklist := env.blacklist } := by
  unfold getJellyseerrAvailability
  have hcond : (!env.hasClient || !env.hasCache) = false := by
    rw [hc, hk]
    rfl
  rw [if_neg (by simp [hcond])]
  dsimp only []
  have h2 : (t != 0 && isBlacklisted env.blacklist env.blacklistThreshold t)
      = true := by
    rw [Bool.and_eq_true]
    exact ⟨bne_iff_ne.mpr ht, hb⟩
  rw [if_pos h2]
  rfl

/-- C5 witness: a concrete blacklisted TVDB id short-circuits the Jellyseerr
lookup. -/
theorem c5_witness :
    isBlacklisted [(7, { reason := "e", failureCount := 1,
                         firstFailure := 0, lastFailure := 0 })] 1 7 = true ∧
    getJellyseerrAvailability
      { hasClient := true, hasCache := true,
        blacklist := [(7, { reason := "e", failureCount := 1,
                            firstFailure := 0, lastFailure := 0 })],
        blacklistThreshold := 1, breaker := CircuitBreaker.init 3 60, now := 0,
        cachedLookup := none,
        tvdbResult := fun _ => Except.ok none,
        imdbResult := fun _ => Except.ok none }
      (some 7) (some "tt9999999") =
      { out := JellyOut.blacklisted 7, requests := [],
        breaker := CircuitBreaker.init 3 60,
        blacklist := [(7, { reason := "e", failureCount := 1,
                            firstFailure := 0, lastFailure := 0 })] } :=
  ⟨by decide,
   c5_blacklist_gates_jellyseerr
     { hasClient := true, hasCache := true,
       blacklist := [(7, { reason := "e", failureCount := 1,
                           firstFailure := 0, lastFailure := 0 })],
       blacklistThreshold := 1, breaker := CircuitBreaker.init 3 60, now := 0,
       cachedLookup := none,
       tvdbResult := fun _ => Except.ok none,
       imdbResult := fun _ => Except.ok none }
     7 (some "tt9999999") rfl rfl (by decide) (by decide)⟩

end Excludarr
